import Mathlib

/-!
IPC demonstration (process.hpp / process.cc): shallow embedding and verified claims.

The C++ sources are embedded as programs over an explicit interface of operating
system and C library calls (`Sys`).  A program (`Prog`) is a tree of such calls; each
method of the source becomes one `Prog` whose body follows the method line by line,
with the data members of the object passed in and out explicitly.

Two interpretations of programs are used:

* `Prog.run`: runs a program against an arbitrary scripted operating system (an
  `Oracle` that answers every call, possibly depending on the history) and records
  the trace of calls.  Used for the acceptance strategies and the fork coordinator,
  whose claims quantify over every possible answer of the OS.
* `Prog.exec` / `World.step`: runs programs of the parent and the child process
  against a small model of the kernel (descriptor tables, pipes, a FIFO node, TCP
  sockets, shared mappings).  Used for the channels.
-/

namespace IPCDemo

/-! ## Values -/

/-- One `char` of memory, as its numeric value. -/
abbrev Byte := Nat

/-- An `fd_set`, as the list of descriptors that are members. -/
abbrev FdSet := List Int

/-- `FD_ZERO` -/
def FD_ZERO : FdSet := []

/-- `FD_SET(fd, &set)` -/
def FD_SET (fd : Int) (set : FdSet) : FdSet := fd :: set

/-- `FD_ISSET(fd, &set)` -/
def FD_ISSET (fd : Int) (set : FdSet) : Bool := decide (fd ∈ set)

/-- `POLLIN` of poll.h -/
def POLLIN : Nat := 1

/-- `EPOLLIN` of sys/epoll.h -/
def EPOLLIN : Nat := 1

/-- `EPOLL_CTL_ADD` of sys/epoll.h -/
def EPOLL_CTL_ADD : Int := 1

/-- `struct epoll_event`: the event mask and the `data.fd` member of the data union. -/
structure EpollEvent where
  events : Nat
  data_fd : Int
  deriving DecidableEq, Repr

/-- The value a method hands back to its caller.  `none` stands for control reaching
the closing brace of a non-void function without a `return` statement: no value
is returned (the caller reads an indeterminate one). -/
abbrev RetVal := Option Int

/-! ## The interface to the operating system -/

/-- An address in the address space of a process (`void *`). -/
abbrev Ptr := Nat

/-- `struct sockaddr_in`: family, IPv4 address and port in network byte order. -/
structure SockAddr where
  sin_family : Nat
  s_addr : Nat
  sin_port : Nat
  deriving DecidableEq, Repr, Inhabited

/-- `pthread_mutexattr_t`: whether it is initialised and the process-shared flag. -/
structure MutexAttr where
  initialised : Bool
  pshared : Bool
  deriving DecidableEq, Repr, Inhabited

/-- `pthread_mutex_t`, held by value in the memory of the object that declares it. -/
structure Mutex where
  locked : Bool
  pshared : Bool
  deriving DecidableEq, Repr, Inhabited

/-- Calls to the operating system and the C library made by the sources. -/
inductive Sys : Type
  /-- `cout << msg << endl` -/
  | cout (msg : String)
  /-- `printf(format, arg)` with one `%s` argument -/
  | printf (format : String) (arg : List Byte)
  /-- `close(fd)` -/
  | close (fd : Int)
  /-- `accept(sock, &c_addr, &c_addr_size)`; the peer address is never used. -/
  | accept (sock : Int)
  /-- `select(nfds, &rfds, NULL, NULL, NULL)` -/
  | select (nfds : Int) (rfds : FdSet)
  /-- `poll(&rfds, 1, timeout)` with `rfds.fd = fd` and `rfds.events = events` -/
  | poll (fd : Int) (events : Nat) (timeout : Int)
  /-- `epoll_create(size)` -/
  | epoll_create (size : Int)
  /-- `epoll_ctl(epfd, op, fd, &event)` -/
  | epoll_ctl (epfd op fd : Int) (event : EpollEvent)
  /-- `epoll_wait(epfd, &w_event, maxevents, timeout)` -/
  | epoll_wait (epfd : Int) (w_event : EpollEvent) (maxevents timeout : Int)
  /-- `fork()` -/
  | fork
  /-- `waitpid(pid, NULL, 0)` -/
  | waitpid (pid : Int)
  /-- `pipe(fd)`, with the current content of `fd[0]` and `fd[1]` -/
  | pipe (fd0 fd1 : Int)
  /-- `write(fd, buf, len)`: `data` is `buf[0..len)` -/
  | write (fd : Int) (data : List Byte)
  /-- `read(fd, buf, len)` -/
  | read (fd : Int) (len : Nat)
  /-- `mkfifo(name, mode)` -/
  | mkfifo (name : String) (mode : Nat)
  /-- `open(name, flags)` -/
  | «open» (name : String) (flags : Nat)
  /-- `sleep(seconds)` -/
  | sleep (seconds : Nat)
  /-- `socket(domain, type, protocol)` -/
  | socket (domain type protocol : Nat)
  /-- `connect(sockfd, &addr, sizeof(addr))` -/
  | connect (sockfd : Int) (addr : SockAddr)
  /-- `bind(sockfd, &addr, sizeof(addr))` -/
  | bind (sockfd : Int) (addr : SockAddr)
  /-- `listen(sockfd, backlog)` -/
  | listen (sockfd : Int) (backlog : Int)
  /-- `mmap(NULL, length, prot, flags, -1, 0)` -/
  | mmap (length : Nat) (prot flags : Nat)
  /-- `munmap(addr, length)` -/
  | munmap (addr : Ptr) (length : Nat)
  /-- Reading one `char` through a pointer. -/
  | load (p : Ptr)
  /-- Writing one `char` through a pointer. -/
  | store (p : Ptr) (b : Byte)
  /-- `pthread_mutex_lock(&m)`, with the current content of `m` -/
  | pthread_mutex_lock (m : Mutex)
  deriving DecidableEq, Repr

/-- What a call hands back: its return value and the new content of its
out-parameters. -/
abbrev Sys.Res : Sys → Type
  | .cout _ => Unit
  | .printf _ _ => Unit
  | .close _ => Int
  | .accept _ => Int
  | .select _ _ => Int × FdSet
  | .poll _ _ _ => Int × Nat
  | .epoll_create _ => Int
  | .epoll_ctl _ _ _ _ => Int
  | .epoll_wait _ _ _ _ => Int × EpollEvent
  | .fork => Int
  | .waitpid _ => Int
  | .pipe _ _ => Int × Int × Int
  | .write _ _ => Int
  | .read _ _ => Int × List Byte
  | .mkfifo _ _ => Int
  | .open _ _ => Int
  | .sleep _ => Unit
  | .socket _ _ _ => Int
  | .connect _ _ => Int
  | .bind _ _ => Int
  | .listen _ _ => Int
  | .mmap _ _ _ => Ptr
  | .munmap _ _ => Int
  | .load _ => Byte
  | .store _ _ => Unit
  | .pthread_mutex_lock _ => Int × Mutex

/-- A program: a tree of calls.  `exit` is `exit(status)`, which never returns;
`spin` is an unbounded loop of the source that is still running when the iteration
bound of the model is used up. -/
inductive Prog (α : Type) : Type
  | ret (a : α) : Prog α
  | sys (c : Sys) (k : c.Res → Prog α) : Prog α
  | exit (status : Int) : Prog α
  | spin : Prog α

namespace Prog

/-- Sequencing of programs. -/
def bind {α γ : Type} : Prog α → (α → Prog γ) → Prog γ
  | ret a, f => f a
  | sys c k, f => sys c (fun b => bind (k b) f)
  | exit s, _ => exit s
  | spin, _ => spin

instance : Monad Prog where
  pure := ret
  bind := bind

end Prog

/-- One entry of a trace: a call and what the operating system answered. -/
structure Event where
  call : Sys
  result : call.Res

/-- A scripted operating system: the answer to a call, given the history so far. -/
def Oracle : Type := List Event → (c : Sys) → c.Res

/-- How a program ended. -/
inductive Outcome (α : Type) : Type
  | returned (a : α)
  | exited (status : Int)
  | spinning
  deriving DecidableEq, Repr

namespace Prog

/-- Run a program against a scripted operating system, extending the history. -/
def run {α : Type} (os : Oracle) : List Event → Prog α → Outcome α × List Event
  | tr, ret a => (.returned a, tr)
  | tr, exit s => (.exited s, tr)
  | tr, spin => (.spinning, tr)
  | tr, sys c k => run os (tr ++ [⟨c, os tr c⟩]) (k (os tr c))

end Prog

/-! ### The calls as programs -/

/-- `cout << msg << endl` -/
def cout (msg : String) : Prog Unit := .sys (.cout msg) .ret

/-- `printf(format, arg)` -/
def printf (format : String) (arg : List Byte) : Prog Unit := .sys (.printf format arg) .ret

/-- `close(fd)` -/
def close (fd : Int) : Prog Int := .sys (.close fd) .ret

/-- `accept(sock, ...)` -/
def accept (sock : Int) : Prog Int := .sys (.accept sock) .ret

/-- `select(nfds, &rfds, NULL, NULL, NULL)`: return value and `rfds` afterwards. -/
def select (nfds : Int) (rfds : FdSet) : Prog (Int × FdSet) :=
  .sys (.select nfds rfds) (fun r => .ret (r.1, r.2))

/-- `poll(&rfds, 1, timeout)`: return value and `rfds.revents` afterwards. -/
def poll (fd : Int) (events : Nat) (timeout : Int) : Prog (Int × Nat) :=
  .sys (.poll fd events timeout) (fun r => .ret (r.1, r.2))

/-- `epoll_create(size)` -/
def epoll_create (size : Int) : Prog Int := .sys (.epoll_create size) .ret

/-- `epoll_ctl(epfd, op, fd, &event)` -/
def epoll_ctl (epfd op fd : Int) (event : EpollEvent) : Prog Int :=
  .sys (.epoll_ctl epfd op fd event) .ret

/-- `epoll_wait(epfd, &w_event, maxevents, timeout)`: return value and `w_event`
afterwards. -/
def epoll_wait (epfd : Int) (w_event : EpollEvent) (maxevents timeout : Int) :
    Prog (Int × EpollEvent) :=
  .sys (.epoll_wait epfd w_event maxevents timeout) (fun r => .ret (r.1, r.2))

/-- `fork()` -/
def fork : Prog Int := .sys .fork .ret

/-- `waitpid(pid, NULL, 0)` -/
def waitpid (pid : Int) : Prog Int := .sys (.waitpid pid) .ret

/-- `pipe(fd)`: return value, `fd[0]` and `fd[1]` afterwards. -/
def pipe (fd0 fd1 : Int) : Prog (Int × Int × Int) :=
  .sys (.pipe fd0 fd1) (fun r => .ret (r.1, r.2.1, r.2.2))

/-- `size_t` value of an `int` argument. -/
def size_t (n : Int) : Nat := (n % 2 ^ 64).toNat

/-- `write(fd, buf, len)`; reading past the end of `buf` is not modelled. -/
def write (fd : Int) (buf : List Byte) (len : Int) : Prog Int :=
  .sys (.write fd (buf.take (size_t len))) .ret

/-- The content of a buffer after `data` has been stored at its start. -/
def fill (buf data : List Byte) : List Byte := data ++ buf.drop data.length

/-- `read(fd, buf, len)`: return value and `buf` afterwards. -/
def read (fd : Int) (buf : List Byte) (len : Int) : Prog (Int × List Byte) :=
  .sys (.read fd (size_t len)) (fun r => .ret (r.1, fill buf r.2))

/-- `mkfifo(name, mode)` -/
def mkfifo (name : String) (mode : Nat) : Prog Int := .sys (.mkfifo name mode) .ret

/-- `open(name, flags)` -/
def «open» (name : String) (flags : Nat) : Prog Int := .sys (.open name flags) .ret

/-- `sleep(seconds)` -/
def sleep (seconds : Nat) : Prog Unit := .sys (.sleep seconds) .ret

/-- `socket(domain, type, protocol)` -/
def socket (domain type protocol : Nat) : Prog Int := .sys (.socket domain type protocol) .ret

/-- `connect(sockfd, &addr, sizeof(addr))` -/
def connect (sockfd : Int) (addr : SockAddr) : Prog Int := .sys (.connect sockfd addr) .ret

/-- `bind(sockfd, &addr, sizeof(addr))` -/
def bind (sockfd : Int) (addr : SockAddr) : Prog Int := .sys (.bind sockfd addr) .ret

/-- `listen(sockfd, backlog)` -/
def listen (sockfd : Int) (backlog : Int) : Prog Int := .sys (.listen sockfd backlog) .ret

/-- `mmap(NULL, length, prot, flags, -1, 0)` -/
def mmap (length : Nat) (prot flags : Nat) : Prog Ptr := .sys (.mmap length prot flags) .ret

/-- `munmap(addr, length)` -/
def munmap (addr : Ptr) (length : Nat) : Prog Int := .sys (.munmap addr length) .ret

/-- `pthread_mutex_lock(&m)`: return value and `m` afterwards. -/
def pthread_mutex_lock (m : Mutex) : Prog (Int × Mutex) :=
  .sys (.pthread_mutex_lock m) (fun r => .ret (r.1, r.2))

/-- Storing the given bytes one after the other from address `dst` on. -/
def storeBytes (dst : Ptr) : List Byte → Prog Unit
  | [] => .ret ()
  | b :: bs => .sys (.store dst b) (fun _ => storeBytes (dst + 1) bs)

/-- Loading `n` bytes one after the other from address `src` on. -/
def loadBytes (src : Ptr) : Nat → Prog (List Byte)
  | 0 => .ret []
  | n + 1 => .sys (.load src) (fun b => (loadBytes (src + 1) n).bind (fun bs => .ret (b :: bs)))

/-- `memset(p, c, n)` on mapped memory: one store per byte. -/
def memset (p : Ptr) (c : Byte) (n : Nat) : Prog Unit := storeBytes p (List.replicate n c)

/-- `memcpy(dst, src, n)` from a buffer of the process into mapped memory: one store
per byte; reading past the end of `src` is not modelled. -/
def memcpy_to (dst : Ptr) (src : List Byte) (n : Nat) : Prog Unit := storeBytes dst (src.take n)

/-- `memcpy(dst, src, n)` from mapped memory into a buffer of the process: one load
per byte; the result is `dst` afterwards. -/
def memcpy_from (dst : List Byte) (src : Ptr) (n : Nat) : Prog (List Byte) := do
  let bs ← loadBytes src n
  return fill dst bs

/-- The line a call writes to standard output, if it is a `cout`. -/
def Sys.coutMsg : Sys → Option String
  | .cout msg => some msg
  | _ => none

/-- Whether a call is `accept`. -/
def Sys.isAccept : Sys → Bool
  | .accept _ => true
  | _ => false

/-- The lines written to standard output through `cout` in a trace. -/
def stdoutOf (tr : List Event) : List String :=
  tr.filterMap (fun e => e.call.coutMsg)

/-- The number of `accept` calls in a trace. -/
def acceptCount (tr : List Event) : Nat :=
  tr.countP (fun e => e.call.isAccept)

/-! ## Acceptance strategies (`IOMulti`) -/

/-- `class NormalIOMulti`: data member `client_sock`. -/
structure NormalIOMulti where
  client_sock : Int
  deriving DecidableEq, Repr

/-- `NormalIOMulti::multi_poll` -/
def NormalIOMulti.multi_poll (self : NormalIOMulti) (sock : Int) :
    Prog (Int × NormalIOMulti) := do
  let r ← accept sock
  let self := { self with client_sock := r }
  return (self.client_sock, self)

/-- `NormalIOMulti::~NormalIOMulti` -/
def NormalIOMulti.dtor (self : NormalIOMulti) : Prog Unit := do
  let _ ← close self.client_sock
  return ()

/-- `class SelectIOMulti`: data member `client_sock`. -/
structure SelectIOMulti where
  client_sock : Int
  deriving DecidableEq, Repr

/-- `SelectIOMulti::multi_poll` -/
def SelectIOMulti.multi_poll (self : SelectIOMulti) (sock : Int) :
    Prog (Int × SelectIOMulti) := do
  let mut self := self
  let c_sock ← accept sock
  self := { self with client_sock := c_sock }
  let rfds := FD_ZERO
  let rfds := FD_SET c_sock rfds
  let (ret, rfds) ← select (c_sock + 1) rfds
  if ret = -1 then
    cout "select error !"
  else if ret = 0 then
    cout "select timeout !"
  else
    if FD_ISSET c_sock rfds then
      self := { self with client_sock := c_sock }
  return (self.client_sock, self)

/-- `SelectIOMulti::~SelectIOMulti` -/
def SelectIOMulti.dtor (self : SelectIOMulti) : Prog Unit := do
  let _ ← close self.client_sock
  return ()

/-- `class PollIOMulti`: data member `client_sock`. -/
structure PollIOMulti where
  client_sock : Int
  deriving DecidableEq, Repr

/-- `PollIOMulti::multi_poll`.  `poll` leaves `rfds.fd` as it was. -/
def PollIOMulti.multi_poll (self : PollIOMulti) (sock : Int) :
    Prog (Int × PollIOMulti) := do
  let mut self := self
  let c_sock ← accept sock
  self := { self with client_sock := c_sock }
  let rfds_fd := c_sock
  let rfds_events := POLLIN
  let (ret, rfds_revents) ← poll rfds_fd rfds_events (-1)
  if ret > 0 then
    if (rfds_revents &&& POLLIN) = POLLIN then
      self := { self with client_sock := rfds_fd }
  else if ret = -1 then
    cout "poll error !"
  else
    cout "poll timeout !"
  return (self.client_sock, self)

/-- `PollIOMulti::~PollIOMulti` -/
def PollIOMulti.dtor (self : PollIOMulti) : Prog Unit := do
  let _ ← close self.client_sock
  return ()

/-- `class EpollIOMulti`: data member `client_sock`. -/
structure EpollIOMulti where
  client_sock : Int
  deriving DecidableEq, Repr

/-- `EpollIOMulti::multi_poll` -/
def EpollIOMulti.multi_poll (self : EpollIOMulti) (sock : Int) :
    Prog (Int × EpollIOMulti) := do
  let mut self := self
  let c_sock ← accept sock
  self := { self with client_sock := c_sock }
  let event : EpollEvent := ⟨0, 0⟩
  let epfd ← epoll_create 1
  let event := { event with data_fd := c_sock }
  let event := { event with events := EPOLLIN }
  let _ ← epoll_ctl epfd EPOLL_CTL_ADD c_sock event
  let w_event : EpollEvent := ⟨0, 0⟩
  let (ret, w_event) ← epoll_wait epfd w_event 1 (-1)
  if ret > 0 then
    if w_event.data_fd = c_sock ∧ (w_event.events &&& EPOLLIN) = EPOLLIN then
      self := { self with client_sock := w_event.data_fd }
  else if ret = -1 then
    cout "epoll error !"
  else
    cout "epoll timeout !"
  return (self.client_sock, self)

/-- `EpollIOMulti::~EpollIOMulti` -/
def EpollIOMulti.dtor (self : EpollIOMulti) : Prog Unit := do
  let _ ← close self.client_sock
  return ()

/-- `new EpollIOMulti()`: the class has no user-provided constructor, so the
initialiser `()` zero-initialises the object. -/
def EpollIOMulti.new : EpollIOMulti := { client_sock := 0 }

/-- The four acceptance strategies. -/
inductive Strategy
  | Blocking
  | Select
  | Poll
  | Epoll
  deriving DecidableEq, Repr

/-- Run `multi_poll` of the strategy's class on an object whose `client_sock` holds
`cs0`, against a scripted operating system with history `tr`: the value returned and
the history afterwards. -/
def Strategy.multi_poll (s : Strategy) (os : Oracle) (tr : List Event) (cs0 sock : Int) :
    Outcome Int × List Event :=
  match s with
  | .Blocking =>
    match ((NormalIOMulti.mk cs0).multi_poll sock).run os tr with
    | (.returned (v, _), tr1) => (.returned v, tr1)
    | (.exited st, tr1) => (.exited st, tr1)
    | (.spinning, tr1) => (.spinning, tr1)
  | .Select =>
    match ((SelectIOMulti.mk cs0).multi_poll sock).run os tr with
    | (.returned (v, _), tr1) => (.returned v, tr1)
    | (.exited st, tr1) => (.exited st, tr1)
    | (.spinning, tr1) => (.spinning, tr1)
  | .Poll =>
    match ((PollIOMulti.mk cs0).multi_poll sock).run os tr with
    | (.returned (v, _), tr1) => (.returned v, tr1)
    | (.exited st, tr1) => (.exited st, tr1)
    | (.spinning, tr1) => (.spinning, tr1)
  | .Epoll =>
    match ((EpollIOMulti.mk cs0).multi_poll sock).run os tr with
    | (.returned (v, _), tr1) => (.returned v, tr1)
    | (.exited st, tr1) => (.exited st, tr1)
    | (.spinning, tr1) => (.spinning, tr1)

/-- The return value of a call, if it is the call in which the given strategy waits
for the connection: `accept` itself for Blocking (the OS waits inside the call), the
readiness call (`select`, `poll`, `epoll_wait`) for the other three. -/
def Strategy.waitResult (s : Strategy) : (c : Sys) → c.Res → Option Int
  | .accept _, r => if s = .Blocking then some r else none
  | .select _ _, r => if s = .Select then some r.1 else none
  | .poll _ _ _, r => if s = .Poll then some r.1 else none
  | .epoll_wait _ _ _ _, r => if s = .Epoll then some r.1 else none
  | _, _ => none

/-- The return values of the waits of the given strategy in a trace. -/
def Strategy.waitResults (s : Strategy) (tr : List Event) : List Int :=
  tr.filterMap (fun e => s.waitResult e.call e.result)

/-- The message a strategy prints for a failed wait, if it has one. -/
def Strategy.errorMsg : Strategy → Option String
  | .Blocking => none
  | .Select => some "select error !"
  | .Poll => some "poll error !"
  | .Epoll => some "epoll error !"

/-- The message a strategy prints for a wait that timed out, if it has one. -/
def Strategy.timeoutMsg : Strategy → Option String
  | .Blocking => none
  | .Select => some "select timeout !"
  | .Poll => some "poll timeout !"
  | .Epoll => some "epoll timeout !"

/-- A run of a strategy reports error and timeout distinctly with the two given
messages: exactly one wait was made, the error message is printed exactly when it
returned -1, the timeout message exactly when it returned 0, the messages differ,
and nothing is printed when the wait reports a ready descriptor. -/
def ReportsDistinctly (s : Strategy) (errMsg timeoutMsg : String) (tr : List Event) :
    Prop :=
  errMsg ≠ timeoutMsg ∧
  ∃ r, s.waitResults tr = [r] ∧
    (errMsg ∈ stdoutOf tr ↔ r = -1) ∧
    (timeoutMsg ∈ stdoutOf tr ↔ r = 0) ∧
    (0 < r → stdoutOf tr = [])

/-- A scripted operating system that answers every `accept` with `acc`, every
readiness call with return value `wait` (and nothing reported ready), `fork` with
`pid`, and every other call with `other`. -/
def scriptedOS (acc wait pid other : Int) : Oracle := fun _ c =>
  match c with
  | .cout _ => ()
  | .printf _ _ => ()
  | .close _ => other
  | .accept _ => acc
  | .select _ _ => (wait, [])
  | .poll _ _ _ => (wait, 0)
  | .epoll_create _ => other
  | .epoll_ctl _ _ _ _ => other
  | .epoll_wait _ _ _ _ => (wait, ⟨0, 0⟩)
  | .fork => pid
  | .waitpid _ => other
  | .pipe fd0 fd1 => (other, fd0, fd1)
  | .write _ _ => other
  | .read _ _ => (other, [])
  | .mkfifo _ _ => other
  | .open _ _ => other
  | .sleep _ => ()
  | .socket _ _ _ => other
  | .connect _ _ => other
  | .bind _ _ => other
  | .listen _ _ => other
  | .mmap _ _ _ => (0 : Nat)
  | .munmap _ _ => other
  | .load _ => (0 : Nat)
  | .store _ _ => ()
  | .pthread_mutex_lock m => (other, m)

/-! ## The fork coordinator (`Fork`, `BasicFork`, `TestFork`) -/

/-- `class Fork`: the two role callbacks a subclass overrides, acting on the data
members `σ` that the subclass adds. -/
structure Fork (σ : Type) : Type 1 where
  parentHandle : σ → Prog (RetVal × σ)
  childHandle : σ → Prog (RetVal × σ)

/-- `class BasicFork`: data member `pid_child`. -/
structure BasicFork where
  pid_child : Int
  deriving DecidableEq, Repr

/-- `BasicFork::doFork`.  When `fork` returns a negative value neither branch is
taken and control reaches the end of the function without a `return`. -/
def BasicFork.doFork {σ : Type} (vt : Fork σ) (self : BasicFork) (d : σ) :
    Prog (RetVal × BasicFork × σ) := do
  let pid ← fork
  if pid = 0 then
    -- child
    let _ ← vt.childHandle d
    Prog.exit 0
  else if pid > 0 then
    -- parent
    let self := { self with pid_child := pid }
    let (r, d) ← vt.parentHandle d
    return (r, self, d)
  else
    return (none, self, d)

/-- `BasicFork::waitFinish` -/
def BasicFork.waitFinish (self : BasicFork) : Prog Int := do
  if self.pid_child = 0 then
    cout "Child wait finish"
    return 0
  let r ← waitpid self.pid_child
  return r

/-- `class TestFork`: the two roles only print a line and return 0. -/
def TestFork : Fork Unit where
  parentHandle := fun d => do
    cout "This ParentHandle !"
    return (some 0, d)
  childHandle := fun d => do
    cout "This ChildHandle !"
    return (some 0, d)

/-- `new TestFork()`: the class has no user-provided constructor, so the initialiser
`()` zero-initialises the object, `pid_child` included. -/
def TestFork.new : BasicFork := { pid_child := 0 }

/-! ## A model of the kernel

Two processes, the parent and the child of the `fork`.  Each has its own descriptor
table; pipes, FIFO nodes, sockets and shared mappings are kernel objects common to
both.  What lives in the private memory of a process (the data members of its
objects, its buffers) is not part of the kernel state: it is passed by value through
the programs, so each process works on its own copy after the fork. -/

/-- The two processes. -/
inductive Pid
  | parent
  | child
  deriving DecidableEq, Repr

/-- What an open descriptor refers to. -/
inductive File
  /-- The terminal the program was started on (descriptors 0, 1 and 2). -/
  | tty
  /-- The read end of a pipe or FIFO object. -/
  | pipeR (id : Nat)
  /-- The write end of a pipe or FIFO object. -/
  | pipeW (id : Nat)
  /-- A socket. -/
  | sock (id : Nat)
  /-- An epoll instance. -/
  | epoll (id : Nat)
  deriving DecidableEq, Repr

/-- A descriptor table: entry `i` is what descriptor `i` refers to, if it is open. -/
abbrev FdTable := List (Option File)

/-- What descriptor `fd` refers to. -/
def FdTable.file (t : FdTable) (fd : Int) : Option File :=
  if fd < 0 then none else (t.getD fd.toNat none)

/-- Open the lowest unused descriptor on `f`: the new table and the descriptor. -/
def FdTable.alloc : FdTable → File → FdTable × Int
  | [], f => ([some f], 0)
  | none :: t, f => (some f :: t, 0)
  | some g :: t, f => ((some g :: (alloc t f).1), (alloc t f).2 + 1)

/-- Release descriptor `fd`. -/
def FdTable.release (t : FdTable) (fd : Int) : FdTable :=
  if fd < 0 then t else t.set fd.toNat none

/-- The state of a TCP socket. -/
inductive SockState
  | fresh
  | bound (addr : SockAddr)
  /-- Listening, with the connections that were established and not yet accepted. -/
  | listening (addr : SockAddr) (backlog : Int) (queue : List Nat)
  | connected (peer : Nat)
  deriving DecidableEq, Repr

/-- A socket: its state, the bytes received and not yet read, and whether the peer
has closed the connection. -/
structure Sock where
  state : SockState
  rcv : List Byte
  peerClosed : Bool
  deriving DecidableEq, Repr

/-- One record of standard output: the process, the text (or format) and the `%s`
argument of a `printf`. -/
structure OutRec where
  pid : Pid
  text : String
  arg : List Byte
  deriving DecidableEq, Repr

/-- The state of the kernel. -/
structure Kernel where
  /-- Descriptor table of the parent. -/
  fdsParent : FdTable
  /-- Descriptor table of the child. -/
  fdsChild : FdTable
  /-- Pipe and FIFO objects: the bytes queued in each. -/
  pipes : List (List Byte)
  /-- FIFO nodes of the working directory: name and pipe object. -/
  fifos : List (String × Nat)
  /-- Processes asleep inside `open` of a FIFO: the pipe object and whether the open
  is for writing.  Such a process already counts as a reader or writer. -/
  opening : List (Pid × Nat × Bool)
  /-- Sockets. -/
  socks : List Sock
  /-- Epoll instances: the registered descriptors with their events. -/
  epolls : List (List (Int × EpollEvent))
  /-- Shared mappings: start address and content. -/
  maps : List (Ptr × List Byte)
  /-- Where the next mapping is placed. -/
  nextMap : Ptr
  /-- Standard output. -/
  out : List OutRec
  deriving DecidableEq, Repr

/-- The kernel state when `main` starts: the parent has the terminal on descriptors
0, 1 and 2, the child does not exist yet. -/
def Kernel.boot : Kernel where
  fdsParent := [some .tty, some .tty, some .tty]
  fdsChild := []
  pipes := []
  fifos := []
  opening := []
  socks := []
  epolls := []
  maps := []
  nextMap := 0x7f0000000000
  out := []

/-- The descriptor table of a process. -/
def Kernel.fds (k : Kernel) : Pid → FdTable
  | .parent => k.fdsParent
  | .child => k.fdsChild

/-- Replace the descriptor table of a process. -/
def Kernel.setFds (k : Kernel) (pid : Pid) (t : FdTable) : Kernel :=
  match pid with
  | .parent => { k with fdsParent := t }
  | .child => { k with fdsChild := t }

/-- The effect of a successful `fork` on the kernel: the child starts with a copy of
the descriptor table of the parent. -/
def Kernel.fork (k : Kernel) : Kernel := { k with fdsChild := k.fdsParent }

/-- Some descriptor of some process refers to `f`. -/
def Kernel.isOpen (k : Kernel) (f : File) : Bool :=
  k.fdsParent.contains (some f) || k.fdsChild.contains (some f)

/-- Pipe object `id` has a reader: an open read end, or a process inside `open` for
reading. -/
def Kernel.hasReader (k : Kernel) (id : Nat) : Bool :=
  k.isOpen (.pipeR id) || k.opening.any (fun o => o.2.1 = id ∧ o.2.2 = false)

/-- Pipe object `id` has a writer: an open write end, or a process inside `open` for
writing. -/
def Kernel.hasWriter (k : Kernel) (id : Nat) : Bool :=
  k.isOpen (.pipeW id) || k.opening.any (fun o => o.2.1 = id ∧ o.2.2 = true)

/-- Capacity of a pipe in bytes (Linux default). -/
def PIPE_CAPACITY : Nat := 65536

/-- Page size. -/
def PAGE_SIZE : Nat := 4096

/-- Length of a mapping of `n` bytes: whole pages. -/
def pageRound (n : Nat) : Nat := (n + PAGE_SIZE - 1) / PAGE_SIZE * PAGE_SIZE

/-- `MAP_FAILED` -/
def MAP_FAILED : Ptr := 2 ^ 64 - 1

/-- `O_RDONLY` of fcntl.h -/
def O_RDONLY : Nat := 0

/-- `O_WRONLY` of fcntl.h -/
def O_WRONLY : Nat := 1

/-- `AF_INET` of sys/socket.h -/
def AF_INET : Nat := 2

/-- `SOCK_STREAM` of sys/socket.h -/
def SOCK_STREAM : Nat := 1

/-- Signal numbers. -/
def SIGSEGV : Int := 11

/-- Signal number of a write to a pipe or connection nobody reads. -/
def SIGPIPE : Int := 13

/-- Whether address `p` lies in mapping `m`: not below its start and within its
content. -/
def inMapping (p : Ptr) (m : Ptr × List Byte) : Bool := m.1 ≤ p && (m.2.get? (p - m.1)).isSome

/-- The byte at address `p`, if `p` is mapped. -/
def Kernel.load (k : Kernel) (p : Ptr) : Option Byte :=
  match k.maps.find? (inMapping p) with
  | some m => m.2.get? (p - m.1)
  | none => none

/-- Mapping `m` after a store of `b` at address `p`. -/
def storeIn (p : Ptr) (b : Byte) (m : Ptr × List Byte) : Ptr × List Byte :=
  if inMapping p m then (m.1, m.2.set (p - m.1) b) else m

/-- Store a byte at address `p`, if `p` is mapped. -/
def Kernel.store (k : Kernel) (p : Ptr) (b : Byte) : Option Kernel :=
  if k.maps.any (inMapping p) then some { k with maps := k.maps.map (storeIn p b) }
  else none

/-- Whether a read of the descriptor would not block. -/
def Kernel.readable (k : Kernel) (pid : Pid) (fd : Int) : Bool :=
  match (k.fds pid).file fd with
  | some (.pipeR id) => (k.pipes.getD id []) ≠ [] || !k.hasWriter id
  | some (.sock id) =>
    match k.socks[id]? with
    | some s =>
      match s.state with
      | .listening _ _ queue => queue ≠ []
      | _ => s.rcv ≠ [] || s.peerClosed
    | none => false
  | _ => false

/-- The index of the first socket of the list (counted from `i`) that listens on
`addr` and has room in its queue. -/
def findListener (addr : SockAddr) : List Sock → Nat → Option Nat
  | [], _ => none
  | s :: rest, i =>
    match s.state with
    | .listening a backlog queue =>
      if a = addr ∧ (queue.length : Int) ≤ backlog then some i
      else findListener addr rest (i + 1)
    | _ => findListener addr rest (i + 1)

/-- The index of a socket listening on `addr` with room in its queue. -/
def Kernel.listener (k : Kernel) (addr : SockAddr) : Option Nat :=
  findListener addr k.socks 0

/-- Whether some socket is bound to `addr` or listens on it. -/
def Kernel.addrInUse (k : Kernel) (addr : SockAddr) : Bool :=
  k.socks.any (fun s =>
    match s.state with
    | .bound a => a = addr
    | .listening a _ _ => a = addr
    | _ => false)

/-- The outcome of one call. -/
inductive Step (β : Type)
  /-- The call returns. -/
  | done (r : β) (k : Kernel)
  /-- The call does not return yet; the kernel may have recorded that the process
  waits. -/
  | blocked (k : Kernel)
  /-- The call raises a signal that terminates the process. -/
  | killed (sig : Int) (k : Kernel)

/-- The kernel after the last descriptor on a connected socket was released: the
peer sees the end of the stream. -/
def Kernel.hangup (k : Kernel) (f : File) : Kernel :=
  match f with
  | .sock id =>
    if k.isOpen (.sock id) then k
    else
      match k.socks[id]? with
      | some ⟨.connected peer, _, _⟩ =>
        match k.socks[peer]? with
        | some p => { k with socks := k.socks.set peer { p with peerClosed := true } }
        | none => k
      | _ => k
  | _ => k

/-- `close(fd)` -/
def Kernel.sysClose (k : Kernel) (pid : Pid) (fd : Int) : Step Int :=
  match (k.fds pid).file fd with
  | none => .done (-1) k
  | some f => .done 0 ((k.setFds pid ((k.fds pid).release fd)).hangup f)

/-- `accept(sock, ...)` -/
def Kernel.sysAccept (k : Kernel) (pid : Pid) (sock : Int) : Step Int :=
  match (k.fds pid).file sock with
  | some (.sock id) =>
    match k.socks[id]? with
    | some ⟨.listening addr backlog (c :: queue), rcv, pc⟩ =>
      .done ((k.fds pid).alloc (.sock c)).2
        ({ k with socks := k.socks.set id ⟨.listening addr backlog queue, rcv, pc⟩ }.setFds pid
          ((k.fds pid).alloc (.sock c)).1)
    | some ⟨.listening _ _ [], _, _⟩ => .blocked k
    | _ => .done (-1) k
  | _ => .done (-1) k

/-- `select(nfds, &rfds, NULL, NULL, NULL)` -/
def Kernel.sysSelect (k : Kernel) (pid : Pid) (nfds : Int) (rfds : FdSet) :
    Step (Int × FdSet) :=
  if (rfds.filter (fun fd => 0 ≤ fd ∧ fd < nfds)).any
      (fun fd => ((k.fds pid).file fd).isNone) then
    .done (-1, rfds) k
  else if ((rfds.filter (fun fd => 0 ≤ fd ∧ fd < nfds)).filter (k.readable pid)) = [] then
    .blocked k
  else
    .done ((((rfds.filter (fun fd => 0 ≤ fd ∧ fd < nfds)).filter (k.readable pid)).length : Nat),
      (rfds.filter (fun fd => 0 ≤ fd ∧ fd < nfds)).filter (k.readable pid)) k

/-- `POLLNVAL` of poll.h -/
def POLLNVAL : Nat := 32

/-- `poll(&rfds, 1, timeout)`.  Time is not modelled: a wait with a timeout that finds
nothing ready returns 0 at once. -/
def Kernel.sysPoll (k : Kernel) (pid : Pid) (fd : Int) (events : Nat) (timeout : Int) :
    Step (Int × Nat) :=
  if 0 ≤ fd ∧ ((k.fds pid).file fd).isNone then .done (1, POLLNVAL) k
  else if 0 ≤ fd ∧ events &&& POLLIN ≠ 0 ∧ k.readable pid fd then .done (1, POLLIN) k
  else if timeout < 0 then .blocked k
  else .done (0, 0) k

/-- `epoll_create(size)` -/
def Kernel.sysEpollCreate (k : Kernel) (pid : Pid) (size : Int) : Step Int :=
  if size ≤ 0 then .done (-1) k
  else
    .done ((k.fds pid).alloc (.epoll k.epolls.length)).2
      ({ k with epolls := k.epolls ++ [[]] }.setFds pid
        ((k.fds pid).alloc (.epoll k.epolls.length)).1)

/-- `epoll_ctl(epfd, op, fd, &event)`; only `EPOLL_CTL_ADD` is modelled. -/
def Kernel.sysEpollCtl (k : Kernel) (pid : Pid) (epfd op fd : Int) (event : EpollEvent) :
    Step Int :=
  match (k.fds pid).file epfd with
  | some (.epoll id) =>
    if op = EPOLL_CTL_ADD ∧ ((k.fds pid).file fd).isSome ∧
        ¬ (k.epolls.getD id []).any (fun r => r.1 = fd) then
      .done 0 { k with epolls := k.epolls.set id (k.epolls.getD id [] ++ [(fd, event)]) }
    else .done (-1) k
  | _ => .done (-1) k

/-- `epoll_wait(epfd, &w_event, maxevents, timeout)`.  Time is not modelled: a wait
with a timeout that finds nothing ready returns 0 at once. -/
def Kernel.sysEpollWait (k : Kernel) (pid : Pid) (epfd : Int) (w_event : EpollEvent)
    (maxevents timeout : Int) : Step (Int × EpollEvent) :=
  match (k.fds pid).file epfd with
  | some (.epoll id) =>
    if maxevents ≤ 0 then .done (-1, w_event) k
    else
      match (k.epolls.getD id []).find?
          (fun r => r.2.events &&& EPOLLIN ≠ 0 && k.readable pid r.1) with
      | some r => .done (1, ⟨EPOLLIN, r.2.data_fd⟩) k
      | none => if timeout < 0 then .blocked k else .done (0, w_event) k
  | _ => .done (-1, w_event) k

/-- `pipe(fd)` -/
def Kernel.sysPipe (k : Kernel) (pid : Pid) : Step (Int × Int × Int) :=
  .done (0, ((k.fds pid).alloc (.pipeR k.pipes.length)).2,
      (((k.fds pid).alloc (.pipeR k.pipes.length)).1.alloc (.pipeW k.pipes.length)).2)
    ({ k with pipes := k.pipes ++ [[]] }.setFds pid
      (((k.fds pid).alloc (.pipeR k.pipes.length)).1.alloc (.pipeW k.pipes.length)).1)

/-- `write(fd, buf, len)` of the bytes `data`.  The bytes of one write are queued in
one piece.  A write to a pipe that does not fit into the free room of the pipe waits
for a reader; the capacity of a connection is not modelled. -/
def Kernel.sysWrite (k : Kernel) (pid : Pid) (fd : Int) (data : List Byte) : Step Int :=
  match (k.fds pid).file fd with
  | some .tty => .done data.length k
  | some (.pipeW id) =>
    if !k.hasReader id then .killed SIGPIPE k
    else if (k.pipes.getD id []).length + data.length ≤ PIPE_CAPACITY then
      .done data.length { k with pipes := k.pipes.set id (k.pipes.getD id [] ++ data) }
    else .blocked k
  | some (.sock id) =>
    match k.socks[id]? with
    | some ⟨.connected peer, _, _⟩ =>
      match k.socks[peer]? with
      | some p =>
        .done data.length { k with socks := k.socks.set peer { p with rcv := p.rcv ++ data } }
      | none => .done data.length k
    | _ => .killed SIGPIPE k
  | _ => .done (-1) k

/-- `read(fd, buf, len)`: the return value and the bytes stored into `buf`.  A read
takes what is queued, up to `len` bytes, and waits only while nothing is queued. -/
def Kernel.sysRead (k : Kernel) (pid : Pid) (fd : Int) (len : Nat) :
    Step (Int × List Byte) :=
  match (k.fds pid).file fd with
  | some .tty => .blocked k
  | some (.pipeR id) =>
    if len = 0 then .done (0, []) k
    else if k.pipes.getD id [] ≠ [] then
      .done ((((k.pipes.getD id []).take len).length : Nat), (k.pipes.getD id []).take len)
        { k with pipes := k.pipes.set id ((k.pipes.getD id []).drop len) }
    else if !k.hasWriter id then .done (0, []) k
    else .blocked k
  | some (.sock id) =>
    match k.socks[id]? with
    | some ⟨.connected peer, rcv, pc⟩ =>
      if len = 0 then .done (0, []) k
      else if rcv ≠ [] then
        .done (((rcv.take len).length : Nat), rcv.take len)
          { k with socks := k.socks.set id ⟨.connected peer, rcv.drop len, pc⟩ }
      else if pc then .done (0, []) k
      else .blocked k
    | _ => .done (-1, []) k
  | _ => .done (-1, []) k

/-- `mkfifo(name, mode)` -/
def Kernel.sysMkfifo (k : Kernel) (name : String) : Step Int :=
  if (k.fifos.lookup name).isSome then .done (-1) k
  else .done 0 { k with fifos := k.fifos ++ [(name, k.pipes.length)], pipes := k.pipes ++ [[]] }

/-- Record that a process sleeps inside `open` of a FIFO. -/
def Kernel.sleepInOpen (k : Kernel) (o : Pid × Nat × Bool) : Kernel :=
  if o ∈ k.opening then k else { k with opening := k.opening ++ [o] }

/-- `open(name, flags)` of a FIFO node; other files are not modelled.  An open for
reading returns once the FIFO has a writer, an open for writing once it has a
reader. -/
def Kernel.sysOpen (k : Kernel) (pid : Pid) (name : String) (flags : Nat) : Step Int :=
  match k.fifos.lookup name with
  | none => .done (-1) k
  | some id =>
    if flags = O_RDONLY then
      if k.hasWriter id then
        .done ((k.fds pid).alloc (.pipeR id)).2
          ({ k with opening := k.opening.erase (pid, id, false) }.setFds pid
            ((k.fds pid).alloc (.pipeR id)).1)
      else .blocked (k.sleepInOpen (pid, id, false))
    else if flags = O_WRONLY then
      if k.hasReader id then
        .done ((k.fds pid).alloc (.pipeW id)).2
          ({ k with opening := k.opening.erase (pid, id, true) }.setFds pid
            ((k.fds pid).alloc (.pipeW id)).1)
      else .blocked (k.sleepInOpen (pid, id, true))
    else .done (-1) k

/-- `socket(domain, type, protocol)`; only TCP sockets are modelled. -/
def Kernel.sysSocket (k : Kernel) (pid : Pid) (domain type : Nat) : Step Int :=
  if domain = AF_INET ∧ type = SOCK_STREAM then
    .done ((k.fds pid).alloc (.sock k.socks.length)).2
      ({ k with socks := k.socks ++ [Sock.mk .fresh [] false] }.setFds pid
        ((k.fds pid).alloc (.sock k.socks.length)).1)
  else .done (-1) k

/-- `connect(sockfd, &addr, sizeof(addr))`: succeeds when a socket listens on `addr`
and fails (connection refused) otherwise. -/
def Kernel.sysConnect (k : Kernel) (pid : Pid) (fd : Int) (addr : SockAddr) : Step Int :=
  match (k.fds pid).file fd with
  | some (.sock id) =>
    match k.socks[id]? with
    | some ⟨.fresh, _, _⟩ =>
      match k.listener addr with
      | some l =>
        match k.socks[l]? with
        | some ⟨.listening a backlog queue, rcv, pc⟩ =>
          .done 0 { k with socks := ((k.socks.set id (Sock.mk (.connected k.socks.length) [] false)).set l (Sock.mk (.listening a backlog (queue ++ [k.socks.length])) rcv pc)) ++ [Sock.mk (.connected id) [] false] }
        | _ => .done (-1) k
      | none => .done (-1) k
    | _ => .done (-1) k
  | _ => .done (-1) k

/-- `bind(sockfd, &addr, sizeof(addr))` -/
def Kernel.sysBind (k : Kernel) (pid : Pid) (fd : Int) (addr : SockAddr) : Step Int :=
  match (k.fds pid).file fd with
  | some (.sock id) =>
    match k.socks[id]? with
    | some ⟨.fresh, rcv, pc⟩ =>
      if k.addrInUse addr then .done (-1) k
      else .done 0 { k with socks := k.socks.set id ⟨.bound addr, rcv, pc⟩ }
    | _ => .done (-1) k
  | _ => .done (-1) k

/-- `listen(sockfd, backlog)` on a bound socket. -/
def Kernel.sysListen (k : Kernel) (pid : Pid) (fd : Int) (backlog : Int) : Step Int :=
  match (k.fds pid).file fd with
  | some (.sock id) =>
    match k.socks[id]? with
    | some ⟨.bound addr, rcv, pc⟩ =>
      .done 0 { k with socks := k.socks.set id ⟨.listening addr backlog [], rcv, pc⟩ }
    | _ => .done (-1) k
  | _ => .done (-1) k

/-- `mmap(NULL, length, prot, flags, -1, 0)` of an anonymous shared mapping: whole
pages, filled with zero bytes. -/
def Kernel.sysMmap (k : Kernel) (length : Nat) : Step Ptr :=
  if length = 0 then .done MAP_FAILED k
  else
    .done k.nextMap { k with
      maps := k.maps ++ [(k.nextMap, List.replicate (pageRound length) 0)],
      nextMap := k.nextMap + pageRound length }

/-- `munmap(addr, length)`: the mappings that lie within the range are removed. -/
def Kernel.sysMunmap (k : Kernel) (addr : Ptr) (length : Nat) : Step Int :=
  if addr % PAGE_SIZE ≠ 0 ∨ length = 0 then .done (-1) k
  else
    .done 0 { k with maps := k.maps.filter (fun m => !(addr ≤ m.1 && m.1 + m.2.length ≤ addr + pageRound length)) }

/-- The outcome of call `c` made by process `pid` in kernel state `k`.  The model has
no processes besides the two, so a `fork` is refused and there is no child to wait
for. -/
def Kernel.sys (k : Kernel) (pid : Pid) : (c : Sys) → Step c.Res
  | .cout msg => .done () { k with out := k.out ++ [⟨pid, msg, []⟩] }
  | .printf format arg => .done () { k with out := k.out ++ [⟨pid, format, arg⟩] }
  | .close fd => k.sysClose pid fd
  | .accept sock => k.sysAccept pid sock
  | .select nfds rfds => k.sysSelect pid nfds rfds
  | .poll fd events timeout => k.sysPoll pid fd events timeout
  | .epoll_create size => k.sysEpollCreate pid size
  | .epoll_ctl epfd op fd event => k.sysEpollCtl pid epfd op fd event
  | .epoll_wait epfd w_event maxevents timeout =>
    k.sysEpollWait pid epfd w_event maxevents timeout
  | .fork => .done (-1) k
  | .waitpid _ => .done (-1) k
  | .pipe _ _ => k.sysPipe pid
  | .write fd data => k.sysWrite pid fd data
  | .read fd len => k.sysRead pid fd len
  | .mkfifo name _ => k.sysMkfifo name
  | .open name flags => k.sysOpen pid name flags
  | .sleep _ => .done () k
  | .socket domain type _ => k.sysSocket pid domain type
  | .connect sockfd addr => k.sysConnect pid sockfd addr
  | .bind sockfd addr => k.sysBind pid sockfd addr
  | .listen sockfd backlog => k.sysListen pid sockfd backlog
  | .mmap length _ _ => k.sysMmap length
  | .munmap addr length => k.sysMunmap addr length
  | .load p =>
    match k.load p with
    | some b => .done b k
    | none => .killed SIGSEGV k
  | .store p b =>
    match k.store p b with
    | some k1 => .done () k1
    | none => .killed SIGSEGV k
  | .pthread_mutex_lock m => if m.locked then .blocked k else .done (0, { m with locked := true }) k

/-- How a program run on its own ended. -/
inductive Exec (α : Type)
  | returned (a : α) (k : Kernel)
  | exited (status : Int) (k : Kernel)
  /-- Stuck in a call that does not return while no other process runs. -/
  | blocked (k : Kernel)
  | killed (sig : Int) (k : Kernel)
  | spinning (k : Kernel)
  deriving DecidableEq, Repr

/-- Run a program of process `pid` to its end while the other process does nothing. -/
def Prog.exec {α : Type} (pid : Pid) : Kernel → Prog α → Exec α
  | k, .ret a => .returned a k
  | k, .exit s => .exited s k
  | k, .spin => .spinning k
  | k, .sys c f =>
    match k.sys pid c with
    | .done r k1 => exec pid k1 (f r)
    | .blocked k1 => .blocked k1
    | .killed sig k1 => .killed sig k1

/-- The two processes after the fork, each with the program it still has to run. -/
structure World (α β : Type) where
  kernel : Kernel
  parent : Prog α
  child : Prog β

/-- One step of the parent: its next call, if the call returns. -/
def World.stepParent {α β : Type} (w : World α β) : World α β :=
  match w.parent with
  | .sys c f =>
    match w.kernel.sys .parent c with
    | .done r k1 => { w with kernel := k1, parent := f r }
    | .blocked k1 => { w with kernel := k1 }
    | .killed sig k1 => { w with kernel := k1, parent := .exit (128 + sig) }
  | _ => w

/-- One step of the child: its next call, if the call returns. -/
def World.stepChild {α β : Type} (w : World α β) : World α β :=
  match w.child with
  | .sys c f =>
    match w.kernel.sys .child c with
    | .done r k1 => { w with kernel := k1, child := f r }
    | .blocked k1 => { w with kernel := k1 }
    | .killed sig k1 => { w with kernel := k1, child := .exit (128 + sig) }
  | _ => w

/-- One step of the given process. -/
def World.step {α β : Type} (w : World α β) : Pid → World α β
  | .parent => w.stepParent
  | .child => w.stepChild

/-- Run the processes in the order given by a schedule. -/
def World.run {α β : Type} (w : World α β) (schedule : List Pid) : World α β :=
  schedule.foldl World.step w

/-- The value a program has returned, if it has finished by returning. -/
def Prog.result {α : Type} : Prog α → Option α
  | .ret a => some a
  | _ => none

/-! ## C library functions on private memory -/

/-- `strlen(s)`: the number of bytes before the first zero byte. -/
def strlen (s : List Byte) : Nat := (s.takeWhile (fun b => b ≠ 0)).length

/-- The bytes of a string literal, with the terminating zero byte. -/
def cstr (s : String) : List Byte := s.toList.map Char.toNat ++ [0]

/-- `PTHREAD_PROCESS_SHARED` of pthread.h -/
def PTHREAD_PROCESS_SHARED : Int := 1

/-- `pthread_mutexattr_init(&attr)`: return value and `attr` afterwards. -/
def pthread_mutexattr_init (_attr : MutexAttr) : Int × MutexAttr := (0, ⟨true, false⟩)

/-- `pthread_mutexattr_setpshared(&attr, pshared)` -/
def pthread_mutexattr_setpshared (attr : MutexAttr) (pshared : Int) : Int × MutexAttr :=
  (0, { attr with pshared := pshared = PTHREAD_PROCESS_SHARED })

/-- `pthread_mutexattr_destroy(&attr)` -/
def pthread_mutexattr_destroy (attr : MutexAttr) : Int × MutexAttr :=
  (0, { attr with initialised := false })

/-- `pthread_mutex_init(&m, &attr)` -/
def pthread_mutex_init (_m : Mutex) (attr : MutexAttr) : Int × Mutex :=
  (0, ⟨false, attr.pshared⟩)

/-- `pthread_mutex_destroy(&m)`; fails with `EBUSY` on a locked mutex. -/
def pthread_mutex_destroy (m : Mutex) : Int × Mutex := if m.locked then (16, m) else (0, m)

/-- `pthread_mutex_unlock(&m)` -/
def pthread_mutex_unlock (m : Mutex) : Int × Mutex := (0, { m with locked := false })

/-- `PROT_READ` of sys/mman.h -/
def PROT_READ : Nat := 1

/-- `PROT_WRITE` of sys/mman.h -/
def PROT_WRITE : Nat := 2

/-- `MAP_SHARED` of sys/mman.h -/
def MAP_SHARED : Nat := 1

/-- `MAP_ANON` of sys/mman.h -/
def MAP_ANON : Nat := 32

/-- `htons(x)`: the two low bytes of `x` swapped. -/
def htons (x : Int) : Nat := (x % 256).toNat * 256 + (x / 256 % 256).toNat

/-- The decimal fields of a dotted address. -/
def dottedFields : List Char → Nat → List Nat → List Nat
  | [], cur, fields => fields ++ [cur]
  | c :: cs, cur, fields =>
    if c = '.' then dottedFields cs 0 (fields ++ [cur])
    else dottedFields cs (cur * 10 + (c.toNat - 48)) fields

/-- `inet_addr(cp)` for a dotted quad: the address in network byte order. -/
def inet_addr (cp : String) : Nat :=
  match dottedFields cp.toList 0 [] with
  | [a, b, c, d] => a + 256 * b + 65536 * c + 16777216 * d
  | _ => 4294967295

/-! ## Channels (`IPC`) -/

/-- `class IPC`: the four operations of a channel, acting on the data members `σ` of
the class that implements it.  `read` also hands back the buffer it filled. -/
structure IPC (σ : Type) where
  «open» : σ → Prog (RetVal × σ)
  close : σ → Prog (RetVal × σ)
  write : σ → List Byte → Int → Prog (RetVal × σ)
  read : σ → List Byte → Int → Prog (RetVal × List Byte × σ)

/-- `class PipeIPC`: data member `int fd[2]`. -/
structure PipeIPC where
  fd0 : Int
  fd1 : Int
  deriving DecidableEq, Repr, Inhabited

/-- `PipeIPC::open` -/
def PipeIPC.«open» (self : PipeIPC) : Prog (RetVal × PipeIPC) := do
  let (_, fd0, fd1) ← pipe self.fd0 self.fd1
  let self := { self with fd0 := fd0, fd1 := fd1 }
  return (some 0, self)

/-- `PipeIPC::close` -/
def PipeIPC.close (self : PipeIPC) : Prog (RetVal × PipeIPC) := do
  let _ ← IPCDemo.close self.fd0
  let _ ← IPCDemo.close self.fd1
  return (some 0, self)

/-- `PipeIPC::write` -/
def PipeIPC.write (self : PipeIPC) (buf : List Byte) (len : Int) :
    Prog (RetVal × PipeIPC) := do
  let r ← IPCDemo.write self.fd1 buf len
  return (some r, self)

/-- `PipeIPC::read` -/
def PipeIPC.read (self : PipeIPC) (buf : List Byte) (len : Int) :
    Prog (RetVal × List Byte × PipeIPC) := do
  let (r, buf) ← IPCDemo.read self.fd0 buf len
  return (some r, buf, self)

/-- `PipeIPC` as a channel. -/
def PipeIPC.ipc : IPC PipeIPC := ⟨PipeIPC.open, PipeIPC.close, PipeIPC.write, PipeIPC.read⟩

/-- `new PipeIPC()`: the class has no user-provided constructor, so the initialiser
`()` zero-initialises the object. -/
def PipeIPC.new : PipeIPC := { fd0 := 0, fd1 := 0 }

/-- `class FifoIPC`: data members `fifo_name`, `w_fd`, `r_fd`. -/
structure FifoIPC where
  fifo_name : String
  w_fd : Int
  r_fd : Int
  deriving DecidableEq, Repr, Inhabited

/-- `FifoIPC::open` -/
def FifoIPC.«open» (self : FifoIPC) : Prog (RetVal × FifoIPC) := do
  let r ← mkfifo self.fifo_name 0o666
  return (some r, self)

/-- `FifoIPC::close` -/
def FifoIPC.close (self : FifoIPC) : Prog (RetVal × FifoIPC) := do
  let _ ← IPCDemo.close self.r_fd
  let _ ← IPCDemo.close self.w_fd
  return (some 0, self)

/-- The loop `for(int i = 0; i < 2; i++)` of `FifoIPC::write`, with the number of
iterations that remain. -/
def FifoIPC.write_loop (w_fd : Int) : Nat → Prog Unit
  | 0 => return ()
  | n + 1 => do
    let tmpbuf := List.replicate 40 0
    let (_, tmpbuf) ← IPCDemo.read w_fd tmpbuf 40
    printf "Writer read : %s\n" tmpbuf
    FifoIPC.write_loop w_fd n

/-- `FifoIPC::write` -/
def FifoIPC.write (self : FifoIPC) (buf : List Byte) (len : Int) :
    Prog (RetVal × FifoIPC) := do
  let w_fd ← IPCDemo.open self.fifo_name O_WRONLY
  let self := { self with w_fd := w_fd }
  let _ ← IPCDemo.write self.w_fd buf len
  FifoIPC.write_loop self.w_fd 2
  return (some 0, self)

/-- `FifoIPC::read` -/
def FifoIPC.read (self : FifoIPC) (buf : List Byte) (len : Int) :
    Prog (RetVal × List Byte × FifoIPC) := do
  let r_fd ← IPCDemo.open self.fifo_name O_RDONLY
  let self := { self with r_fd := r_fd }
  sleep 5
  let (r, buf) ← IPCDemo.read self.r_fd buf len
  return (some r, buf, self)

/-- `FifoIPC` as a channel. -/
def FifoIPC.ipc : IPC FifoIPC := ⟨FifoIPC.open, FifoIPC.close, FifoIPC.write, FifoIPC.read⟩

/-- `new FifoIPC()`: zero-initialised, then `fifo_name` gets its default member
initialiser. -/
def FifoIPC.new : FifoIPC := { fifo_name := "fifoipc", w_fd := 0, r_fd := 0 }

/-- `class MmapIPC`: data members `mtx`, `mtxattr`, `mm` and the constant `mm_size`.
The mutex is a member of the object, so it lies in the private memory of the
process; only the memory `mm` points to is a shared mapping. -/
structure MmapIPC where
  mtx : Mutex
  mtxattr : MutexAttr
  mm : Ptr
  mm_size : Int
  deriving DecidableEq, Repr, Inhabited

/-- `MmapIPC::open`; the function has no `return` statement. -/
def MmapIPC.«open» (self : MmapIPC) : Prog (RetVal × MmapIPC) := do
  -- create mutex
  let (_, mtxattr) := pthread_mutexattr_init self.mtxattr
  let (_, mtxattr) := pthread_mutexattr_setpshared mtxattr PTHREAD_PROCESS_SHARED
  let (_, mtx) := pthread_mutex_init self.mtx mtxattr
  let self := { self with mtx := mtx, mtxattr := mtxattr }
  -- mmap
  let mm ← mmap (size_t self.mm_size) (PROT_READ ||| PROT_WRITE) (MAP_ANON ||| MAP_SHARED)
  let self := { self with mm := mm }
  memset self.mm 0 (size_t self.mm_size)
  return (none, self)

/-- `MmapIPC::close`; the function has no `return` statement. -/
def MmapIPC.close (self : MmapIPC) : Prog (RetVal × MmapIPC) := do
  let (_, mtx) := pthread_mutex_destroy self.mtx
  let (_, mtxattr) := pthread_mutexattr_destroy self.mtxattr
  let self := { self with mtx := mtx, mtxattr := mtxattr }
  let _ ← munmap self.mm (size_t self.mm_size)
  return (none, self)

/-- `MmapIPC::write` -/
def MmapIPC.write (self : MmapIPC) (buf : List Byte) (len : Int) :
    Prog (RetVal × MmapIPC) := do
  cout "writing"
  let (_, mtx) ← pthread_mutex_lock self.mtx
  let self := { self with mtx := mtx }
  memcpy_to self.mm buf (size_t len)
  let (_, mtx) := pthread_mutex_unlock self.mtx
  let self := { self with mtx := mtx }
  return (some len, self)

/-- `MmapIPC::read` -/
def MmapIPC.read (self : MmapIPC) (buf : List Byte) (len : Int) :
    Prog (RetVal × List Byte × MmapIPC) := do
  cout "reading"
  let (_, mtx) ← pthread_mutex_lock self.mtx
  let self := { self with mtx := mtx }
  let buf ← memcpy_from buf self.mm (size_t len)
  let (_, mtx) := pthread_mutex_unlock self.mtx
  let self := { self with mtx := mtx }
  return (some len, buf, self)

/-- `MmapIPC` as a channel. -/
def MmapIPC.ipc : IPC MmapIPC := ⟨MmapIPC.open, MmapIPC.close, MmapIPC.write, MmapIPC.read⟩

/-- `new MmapIPC()`: zero-initialised, then `mm_size` gets its default member
initialiser. -/
def MmapIPC.new : MmapIPC :=
  { mtx := ⟨false, false⟩, mtxattr := ⟨false, false⟩, mm := 0, mm_size := 1024 }

/-- `class SocketIPC`: data members `ip`, `port`, `addr`. -/
structure SocketIPC where
  ip : String
  port : Int
  addr : SockAddr
  deriving DecidableEq, Repr, Inhabited

/-- `SocketIPC::open` -/
def SocketIPC.«open» (self : SocketIPC) : Prog (RetVal × SocketIPC) := do
  let self := { self with addr := { self.addr with sin_family := AF_INET } }
  let self := { self with addr := { self.addr with s_addr := inet_addr self.ip } }
  let self := { self with addr := { self.addr with sin_port := htons self.port } }
  return (some 0, self)

/-- `SocketIPC::close` -/
def SocketIPC.close (self : SocketIPC) : Prog (RetVal × SocketIPC) := do
  return (some 0, self)

/-- The loop `while(0 != connect(...))` of `SocketIPC::write`, run for at most `fuel`
iterations. -/
def SocketIPC.write_loop (sockfd : Int) (addr : SockAddr) : Nat → Prog Unit
  | 0 => Prog.spin
  | fuel + 1 => do
    let r ← connect sockfd addr
    if 0 ≠ r then
      cout "Wait for connnect..."
      SocketIPC.write_loop sockfd addr fuel
    else
      return ()

/-- `SocketIPC::write`, with a bound on the iterations of its loop; the function has
no `return` statement. -/
def SocketIPC.write (fuel : Nat) (self : SocketIPC) (buf : List Byte) (len : Int) :
    Prog (RetVal × SocketIPC) := do
  let sockfd ← socket AF_INET SOCK_STREAM 0
  SocketIPC.write_loop sockfd self.addr fuel
  let _ ← IPCDemo.write sockfd buf len
  let _ ← IPCDemo.close sockfd
  return (none, self)

/-- `SocketIPC::read`; the function has no `return` statement. -/
def SocketIPC.read (self : SocketIPC) (buf : List Byte) (len : Int) :
    Prog (RetVal × List Byte × SocketIPC) := do
  let sockfd ← socket AF_INET SOCK_STREAM 0
  let _ ← IPCDemo.bind sockfd self.addr
  let _ ← listen sockfd 2
  let io := EpollIOMulti.new
  let (c_sockfd, io) ← io.multi_poll sockfd
  let (_, buf) ← IPCDemo.read c_sockfd buf len
  io.dtor
  let _ ← IPCDemo.close sockfd
  return (none, buf, self)

/-- `SocketIPC` as a channel, with a bound on the iterations of the connect loop. -/
def SocketIPC.ipc (fuel : Nat) : IPC SocketIPC :=
  ⟨SocketIPC.open, SocketIPC.close, SocketIPC.write fuel, SocketIPC.read⟩

/-- `new SocketIPC()`: zero-initialised, then `ip` and `port` get their default member
initialisers. -/
def SocketIPC.new : SocketIPC := { ip := "127.0.0.1", port := 9527, addr := ⟨0, 0, 0⟩ }

/-! ## The demonstration (`IPCFork`) -/

/-- `IPCFork::IPCFork(IPC *c)`: stores the channel and opens it.  The constructor does
not initialise the `BasicFork` part, so `pid_child` keeps the content `raw` of the
storage the object is built in. -/
def IPCFork.new {σ : Type} (ipc : IPC σ) (c : σ) (raw : BasicFork) : Prog (BasicFork × σ) := do
  let (_, c) ← ipc.open c
  return (raw, c)

/-- `IPCFork::~IPCFork` -/
def IPCFork.dtor {σ : Type} (ipc : IPC σ) (c : σ) : Prog σ := do
  let (_, c) ← ipc.close c
  return c

/-- `IPCFork::parentHandle` -/
def IPCFork.parentHandle {σ : Type} (ipc : IPC σ) (c : σ) : Prog (RetVal × σ) := do
  let say := cstr "I love you"
  let (w_num, c) ← ipc.write c say (strlen say)
  return (w_num, c)

/-- The body of `IPCFork::childHandle`; the result includes the local buffer `hear`
as it is when the function returns. -/
def IPCFork.childBody {σ : Type} (ipc : IPC σ) (c : σ) : Prog (RetVal × List Byte × σ) := do
  let hear := List.replicate 20 0
  let (_, hear, c) ← ipc.read c hear 20
  printf "I hear : %s\n" hear
  return (some (strlen hear), hear, c)

/-- `IPCFork::childHandle` -/
def IPCFork.childHandle {σ : Type} (ipc : IPC σ) (c : σ) : Prog (RetVal × σ) := do
  let (r, _, c) ← IPCFork.childBody ipc c
  return (r, c)

/-- `class IPCFork` as a coordinator: the two roles. -/
def IPCFork {σ : Type} (ipc : IPC σ) : Fork σ :=
  ⟨IPCFork.parentHandle ipc, IPCFork.childHandle ipc⟩

/-! ## Scenarios -/

/-- The channel object and the kernel right after the `fork` of the demonstration: the
object was opened in the parent by the constructor of `IPCFork`, and the child has
received a copy of the object and of the descriptor table. -/
def afterFork {σ : Type} (ipc : IPC σ) (c : σ) : Option (σ × Kernel) :=
  match (ipc.open c).exec .parent Kernel.boot with
  | .returned (_, c0) k0 => some (c0, k0.fork)
  | _ => none

/-- After the fork the parent runs `write(buf, len)` and the child `read(out, len)`,
interleaved as the schedule says: the content of `out` afterwards, if both calls have
returned by the end of the schedule. -/
def exchange {σ : Type} (ipc : IPC σ) (c : σ) (buf out : List Byte) (len : Int)
    (schedule : List Pid) : Option (List Byte) :=
  match afterFork ipc c with
  | some (c0, k0) =>
    match ((World.mk k0 (ipc.write c0 buf len) (ipc.read c0 out len)).run schedule).parent.result,
      ((World.mk k0 (ipc.write c0 buf len) (ipc.read c0 out len)).run schedule).child.result with
    | some _, some (_, out1, _) => some out1
    | _, _ => none
  | none => none

/-! ## States reached in the scenarios (used to state intermediate results) -/

/-- The `MmapIPC` object after `open` in the initial kernel state. -/
def MmapIPC.opened : MmapIPC :=
  ⟨⟨false, true⟩, ⟨true, true⟩, Kernel.boot.nextMap, 1024⟩

/-- The kernel after `MmapIPC::open` and the fork, with the given content of the
shared mapping and the given output. -/
def Kernel.mmapForked (data : List Byte) (out : List OutRec) : Kernel :=
  { Kernel.boot with
    fdsChild := Kernel.boot.fdsParent,
    maps := [(Kernel.boot.nextMap, data)],
    nextMap := Kernel.boot.nextMap + pageRound 1024,
    out := out }

/-- The `PipeIPC` object after `open` in the initial kernel state. -/
def PipeIPC.opened : PipeIPC := ⟨3, 4⟩

/-- The `SocketIPC` object after `open`. -/
def SocketIPC.opened : SocketIPC :=
  { ip := "127.0.0.1", port := 9527, addr := ⟨AF_INET, inet_addr "127.0.0.1", htons 9527⟩ }

/-- The call a program is about to make. -/
def Prog.nextCall {α : Type} : Prog α → Option Sys
  | .sys c _ => some c
  | _ => none

/-- The claim of an all-or-nothing read on the shared-memory channel: however one
`write(buf, n)` of the parent and one `read(out, n)` of the child are interleaved,
the bytes the read delivers are those of the region before the write (zero bytes)
or those after it (`buf[0..n)`). -/
def AllOrNothing (buf out : List Byte) (n : Nat) : Prop :=
  ∀ schedule out1, exchange MmapIPC.ipc MmapIPC.new buf out n schedule = some out1 →
    out1 = fill out (List.replicate n 0) ∨ out1 = fill out (buf.take n)

/-! ## Theorems -/

theorem Prog.run_bind {α γ : Type} (os : Oracle) (p : Prog α) (f : α → Prog γ) (tr : List Event) :
    (p >>= f).run os tr =
      match p.run os tr with
      | (.returned a, tr1) => (f a).run os tr1
      | (.exited s, tr1) => (.exited s, tr1)
      | (.spinning, tr1) => (.spinning, tr1) := by
  induction p generalizing tr with
  | ret a => rfl
  | sys c k ih => exact ih _ _
  | exit s => rfl
  | spin => rfl

theorem acceptCount_append (tr1 tr2 : List Event) :
    acceptCount (tr1 ++ tr2) = acceptCount tr1 + acceptCount tr2 := by
  simp [acceptCount]

theorem stdoutOf_append (tr1 tr2 : List Event) :
    stdoutOf (tr1 ++ tr2) = stdoutOf tr1 ++ stdoutOf tr2 := by
  simp [stdoutOf]

theorem waitResults_append (s : Strategy) (tr1 tr2 : List Event) :
    s.waitResults (tr1 ++ tr2) = s.waitResults tr1 ++ s.waitResults tr2 := by
  simp [Strategy.waitResults]

/-- C3: under every behaviour of the operating system (every history, every listening
descriptor, every answer to `accept` and to the readiness call), each of the four
strategies returns the descriptor that its single `accept` call produced, which is
the value the blocking strategy returns, and the trace gains exactly one `accept`. -/
theorem C3_strategies_return_accepted (s : Strategy) (os : Oracle) (tr : List Event)
    (cs0 sock : Int) :
    (s.multi_poll os tr cs0 sock).1 = .returned (os tr (.accept sock)) ∧
    (s.multi_poll os tr cs0 sock).1 = (Strategy.Blocking.multi_poll os tr cs0 sock).1 ∧
    acceptCount (s.multi_poll os tr cs0 sock).2 = acceptCount tr + 1 := by
  cases s
  · simp [Strategy.multi_poll, NormalIOMulti.multi_poll, accept, select, poll, epoll_create, epoll_ctl, epoll_wait, cout, Bind.bind, Prog.bind, Prog.run, pure,
      acceptCount_append, acceptCount, Sys.isAccept]
  · simp only [Strategy.multi_poll, NormalIOMulti.multi_poll, SelectIOMulti.multi_poll,
      Bind.bind, Prog.bind, Prog.run, pure]
    split_ifs <;>
      simp [Prog.bind, Prog.run, acceptCount_append, acceptCount, Sys.isAccept]
  · simp only [Strategy.multi_poll, NormalIOMulti.multi_poll, PollIOMulti.multi_poll,
      Bind.bind, Prog.bind, Prog.run, pure]
    split_ifs <;>
      simp [Prog.bind, Prog.run, acceptCount_append, acceptCount, Sys.isAccept]
  · simp only [Strategy.multi_poll, NormalIOMulti.multi_poll, EpollIOMulti.multi_poll,
      accept, epoll_create, epoll_ctl, epoll_wait, cout, Bind.bind, Prog.bind, Prog.run, pure]
    split_ifs <;>
      simp_all [Prog.bind, Prog.run, acceptCount_append, acceptCount, Sys.isAccept]

theorem select_reports (os : Oracle) (cs0 sock : Int) :
    ReportsDistinctly .Select "select error !" "select timeout !"
      (Strategy.Select.multi_poll os [] cs0 sock).2 := by
  simp only [ReportsDistinctly, Strategy.multi_poll, SelectIOMulti.multi_poll,
    accept, select, cout, Bind.bind, Prog.bind, Prog.run, pure]
  generalize os [] (Sys.accept sock) = c
  generalize os _ (Sys.select _ _) = w
  split_ifs <;>
    simp_all [Prog.bind, Prog.run, Strategy.waitResults, Strategy.waitResult, stdoutOf,
      Sys.coutMsg]

theorem poll_reports (os : Oracle) (cs0 sock : Int)
    (hwait : ∀ r ∈ Strategy.Poll.waitResults (Strategy.Poll.multi_poll os [] cs0 sock).2, -1 ≤ r) :
    ReportsDistinctly .Poll "poll error !" "poll timeout !"
      (Strategy.Poll.multi_poll os [] cs0 sock).2 := by
  revert hwait
  simp only [ReportsDistinctly, Strategy.multi_poll, PollIOMulti.multi_poll,
    accept, poll, cout, Bind.bind, Prog.bind, Prog.run, pure]
  generalize os [] (Sys.accept sock) = c
  generalize os _ (Sys.poll _ _ _) = w
  split_ifs <;>
    simp_all [Prog.bind, Prog.run, Strategy.waitResults, Strategy.waitResult, stdoutOf,
      Sys.coutMsg] <;> omega

theorem epoll_reports (os : Oracle) (cs0 sock : Int)
    (hwait : ∀ r ∈ Strategy.Epoll.waitResults (Strategy.Epoll.multi_poll os [] cs0 sock).2, -1 ≤ r) :
    ReportsDistinctly .Epoll "epoll error !" "epoll timeout !"
      (Strategy.Epoll.multi_poll os [] cs0 sock).2 := by
  revert hwait
  simp only [ReportsDistinctly, Strategy.multi_poll, EpollIOMulti.multi_poll,
    accept, epoll_create, epoll_ctl, epoll_wait, cout, Bind.bind, Prog.bind, Prog.run, pure]
  generalize os [] (Sys.accept sock) = c
  generalize os _ (Sys.epoll_create 1) = ep
  generalize os _ (Sys.epoll_ctl _ _ _ _) = ctl
  generalize os _ (Sys.epoll_wait _ _ _ _) = w
  split_ifs <;>
    simp_all [Prog.bind, Prog.run, Strategy.waitResults, Strategy.waitResult, stdoutOf,
      Sys.coutMsg] <;> omega

theorem blocking_trace (os : Oracle) (cs0 sock : Int) :
    (Strategy.Blocking.multi_poll os [] cs0 sock).2 = [⟨.accept sock, os [] (.accept sock)⟩] := by
  simp [Strategy.multi_poll, NormalIOMulti.multi_poll, accept, Bind.bind, Prog.bind, Prog.run, pure]

/-- C4 (as stated, for the blocking strategy): there is no pair of messages with which
`NormalIOMulti::multi_poll` reports a failed wait; when `accept`, the call in which
it waits, returns -1, nothing is printed. -/
theorem C4_blocking_reports_nothing :
    ¬ ∃ errMsg timeoutMsg : String, ∀ (os : Oracle) (cs0 sock : Int),
      ReportsDistinctly .Blocking errMsg timeoutMsg
        (Strategy.Blocking.multi_poll os [] cs0 sock).2 := by
  rintro ⟨em, tm, h⟩
  obtain ⟨_, r, hr, herr, _, _⟩ := h (scriptedOS (-1) 0 0 0) 0 3
  have h1 : r = -1 := by
    have : [r] = [-1] := by rw [← hr]; decide
    simpa using this
  have h2 : em ∈ stdoutOf (Strategy.Blocking.multi_poll (scriptedOS (-1) 0 0 0) [] 0 3).2 :=
    herr.2 h1
  have h3 : stdoutOf (Strategy.Blocking.multi_poll (scriptedOS (-1) 0 0 0) [] 0 3).2 = [] := by
    decide
  rw [h3] at h2
  exact absurd h2 (List.not_mem_nil _)

/-- C4 (amended): each of the three strategies that make a readiness call (Select, Poll,
Epoll) makes exactly one, and for every result the call can produce (at least -1)
prints its error message exactly when the result is -1, its timeout message exactly
when the result is 0, the two messages differ, and nothing is printed for a positive
result.  The blocking strategy makes no readiness call and prints nothing. -/
theorem C4_waiting_strategies_report (s : Strategy) (errMsg timeoutMsg : String)
    (os : Oracle) (cs0 sock : Int)
    (he : s.errorMsg = some errMsg) (ht : s.timeoutMsg = some timeoutMsg)
    (hwait : ∀ r ∈ s.waitResults (s.multi_poll os [] cs0 sock).2, -1 ≤ r) :
    ReportsDistinctly s errMsg timeoutMsg (s.multi_poll os [] cs0 sock).2 ∧
    stdoutOf (Strategy.Blocking.multi_poll os [] cs0 sock).2 = [] ∧
    Strategy.Select.waitResults (Strategy.Blocking.multi_poll os [] cs0 sock).2 = [] ∧
    Strategy.Poll.waitResults (Strategy.Blocking.multi_poll os [] cs0 sock).2 = [] ∧
    Strategy.Epoll.waitResults (Strategy.Blocking.multi_poll os [] cs0 sock).2 = [] := by
  refine ⟨?_, ?_, ?_, ?_, ?_⟩
  · cases s
    · simp [Strategy.errorMsg] at he
    · simp only [Strategy.errorMsg, Strategy.timeoutMsg, Option.some.injEq] at he ht
      subst he ht
      exact select_reports os cs0 sock
    · simp only [Strategy.errorMsg, Strategy.timeoutMsg, Option.some.injEq] at he ht
      subst he ht
      exact poll_reports os cs0 sock hwait
    · simp only [Strategy.errorMsg, Strategy.timeoutMsg, Option.some.injEq] at he ht
      subst he ht
      exact epoll_reports os cs0 sock hwait
  all_goals
    rw [blocking_trace]
    simp [stdoutOf, Sys.coutMsg, Strategy.waitResults, Strategy.waitResult]

/-- Witness for C4: the Select strategy at a failed wait. -/
theorem C4_waiting_strategies_report_witness :
    ReportsDistinctly .Select "select error !" "select timeout !"
      (Strategy.Select.multi_poll (scriptedOS 7 (-1) 0 0) [] 0 3).2 :=
  (C4_waiting_strategies_report .Select "select error !" "select timeout !"
    (scriptedOS 7 (-1) 0 0) 0 3 rfl rfl (by decide)).1

theorem doFork_failed {σ : Type} (vt : Fork σ) (self : BasicFork)
    (d : σ) (os : Oracle) (tr : List Event) (h : (os tr .fork : Int) < 0) :
    (BasicFork.doFork vt self d).run os tr
      = (.returned (none, self, d), tr ++ [⟨.fork, os tr .fork⟩]) := by
  simp only [BasicFork.doFork, fork, Bind.bind, Prog.bind, Prog.run, pure]
  obtain ⟨pid, hpid⟩ : ∃ pid : Int, pid = os tr .fork := ⟨_, rfl⟩
  rw [← hpid] at h ⊢
  replace h : pid < 0 := hpid ▸ h
  have h0 : ¬ pid = 0 := by omega
  have h1 : ¬ pid > 0 := by omega
  simp [h0, h1, Prog.run]

theorem doFork_parent {σ : Type} (vt : Fork σ) (self : BasicFork) (d : σ) (os : Oracle)
    (tr : List Event) (h : 0 < (os tr .fork : Int)) :
    (BasicFork.doFork vt self d).run os tr =
        (match (vt.parentHandle d).run os (tr ++ [⟨.fork, os tr .fork⟩]) with
          | (.returned (r, d1), tr1) => (.returned (r, ⟨os tr .fork⟩, d1), tr1)
          | (.exited st, tr1) => (.exited st, tr1)
          | (.spinning, tr1) => (.spinning, tr1)) := by
  simp only [BasicFork.doFork, fork, Bind.bind, Prog.bind, Prog.run, pure]
  obtain ⟨pid, hpid⟩ : ∃ pid : Int, pid = os tr .fork := ⟨_, rfl⟩
  rw [← hpid] at h ⊢
  replace h : 0 < pid := hpid ▸ h
  have h0 : ¬ pid = 0 := by omega
  simp only [h0, if_false, gt_iff_lt, h, if_true]
  have := Prog.run_bind os (vt.parentHandle d)
    (fun x => Prog.ret (x.1, ({ pid_child := pid } : BasicFork), x.2)) (tr ++ [⟨.fork, pid⟩])
  simp only [Bind.bind] at this
  rw [this]
  generalize Prog.run os _ (vt.parentHandle d) = res
  obtain ⟨o, tr1⟩ := res
  cases o <;> simp [Prog.run]

theorem doFork_child {σ : Type} (vt : Fork σ) (self : BasicFork) (d : σ) (os : Oracle)
    (tr : List Event) (h : (os tr .fork : Int) = 0) :
    (BasicFork.doFork vt self d).run os tr =
        (match (vt.childHandle d).run os (tr ++ [⟨.fork, os tr .fork⟩]) with
          | (.returned _, tr1) => (.exited 0, tr1)
          | (.exited st, tr1) => (.exited st, tr1)
          | (.spinning, tr1) => (.spinning, tr1)) := by
  simp only [BasicFork.doFork, fork, Bind.bind, Prog.bind, Prog.run, pure]
  obtain ⟨pid, hpid⟩ : ∃ pid : Int, pid = os tr .fork := ⟨_, rfl⟩
  rw [← hpid] at h ⊢
  replace h : pid = 0 := hpid ▸ h
  subst h
  simp only [if_true]
  have := Prog.run_bind os (vt.childHandle d)
    (fun _ => (Prog.exit 0 : Prog (RetVal × BasicFork × σ))) (tr ++ [⟨.fork, (0 : Int)⟩])
  simp only [Bind.bind] at this
  rw [this]
  generalize Prog.run os _ (vt.childHandle d) = res
  obtain ⟨o, tr1⟩ := res
  cases o <;> simp [Prog.run]

theorem waitFinish_nonzero (self : BasicFork) (os : Oracle) (tr : List Event)
    (h : self.pid_child ≠ 0) :
    (BasicFork.waitFinish self).run os tr =
      (.returned (os tr (.waitpid self.pid_child)),
        tr ++ [⟨.waitpid self.pid_child, os tr (.waitpid self.pid_child)⟩]) := by
  simp [BasicFork.waitFinish, waitpid, cout, Bind.bind, Prog.bind, Prog.run, pure, h]

theorem waitFinish_zero (self : BasicFork) (os : Oracle) (tr : List Event)
    (h : self.pid_child = 0) :
    (BasicFork.waitFinish self).run os tr =
      (.returned 0, tr ++ [⟨.cout "Child wait finish", ()⟩]) := by
  simp [BasicFork.waitFinish, waitpid, cout, Bind.bind, Prog.bind, Prog.run, pure, h]

theorem Prog.exec_bind {α γ : Type} (pid : Pid) (p : Prog α) (f : α → Prog γ) (k : Kernel) :
    (p.bind f).exec pid k =
      match p.exec pid k with
      | .returned a k1 => (f a).exec pid k1
      | .exited s k1 => .exited s k1
      | .blocked k1 => .blocked k1
      | .killed sig k1 => .killed sig k1
      | .spinning k1 => .spinning k1 := by
  induction p generalizing k with
  | ret a => rfl
  | exit s => rfl
  | spin => rfl
  | sys c g ih =>
    simp only [Prog.bind, Prog.exec]
    cases k.sys pid c with
    | done r k1 => exact ih r k1
    | blocked k1 => rfl
    | killed sig k1 => rfl

theorem Kernel.store_single (k : Kernel) (base : Ptr) (data : List Byte) (off : Nat) (b : Byte)
    (hm : k.maps = [(base, data)]) (hoff : off < data.length) :
    k.store (base + off) b = some { k with maps := [(base, data.set off b)] } := by
  simp [Kernel.store, hm, inMapping, storeIn, List.get?_eq_getElem?, List.getElem?_eq_getElem hoff]

theorem Kernel.load_single (k : Kernel) (base : Ptr) (data : List Byte) (off : Nat)
    (hm : k.maps = [(base, data)]) (hoff : off < data.length) :
    k.load (base + off) = data[off]? := by
  simp [Kernel.load, hm, inMapping, List.get?_eq_getElem?, List.getElem?_eq_getElem hoff, List.find?]

theorem splice_set (data : List Byte) (off : Nat) (b : Byte) (bs : List Byte)
    (h : off < data.length) :
    List.take (off + 1) (data.set off b) ++ bs ++ List.drop (off + 1 + bs.length) (data.set off b)
      = List.take off data ++ (b :: bs) ++ List.drop (off + (bs.length + 1)) data := by
  have hA : (List.take off data).length = off := by simp; omega
  have e : data.set off b = List.take off data ++ b :: List.drop (off + 1) data := by
    rw [List.set_eq_take_append_cons_drop]; simp [h]
  have t : List.take (off + 1) (data.set off b) = List.take off data ++ [b] := by
    rw [e, List.take_append_eq_append_take, hA]
    simp
  have d : List.drop (off + 1 + bs.length) (data.set off b)
      = List.drop (off + (bs.length + 1)) data := by
    rw [List.drop_set_of_lt _ _ (by omega)]
    congr 1; omega
  rw [t, d]; simp

theorem exec_storeBytes (pid : Pid) (bs : List Byte) (k : Kernel) (base : Ptr) (data : List Byte)
    (off : Nat) (hm : k.maps = [(base, data)]) (hlen : off + bs.length ≤ data.length) :
    (storeBytes (base + off) bs).exec pid k =
      .returned () { k with maps := [(base, data.take off ++ bs ++ data.drop (off + bs.length))] } := by
  induction bs generalizing k data off with
  | nil =>
    simp [storeBytes, Prog.exec, ← hm]
  | cons b bs ih =>
    simp only [List.length_cons] at hlen
    have hoff : off < data.length := by omega
    simp only [storeBytes, Prog.exec, Kernel.sys, Kernel.store_single k base data off b hm hoff]
    rw [Nat.add_assoc]
    refine (ih { k with maps := [(base, data.set off b)] } (data.set off b) (off + 1) rfl
      (by simp; omega)).trans ?_
    simp only [List.length_cons, splice_set data off b bs hoff]

theorem exec_loadBytes (pid : Pid) (n : Nat) (k : Kernel) (base : Ptr) (data : List Byte)
    (off : Nat) (hm : k.maps = [(base, data)]) (hlen : off + n ≤ data.length) :
    (loadBytes (base + off) n).exec pid k = .returned ((data.drop off).take n) k := by
  induction n generalizing off with
  | zero => simp [loadBytes, Prog.exec]
  | succ n ih =>
    have hoff : off < data.length := by omega
    simp only [loadBytes, Prog.exec, Kernel.sys, Kernel.load_single k base data off hm hoff]
    simp only [List.getElem?_eq_getElem hoff]
    rw [Prog.exec_bind, Nat.add_assoc, ih (off + 1) (by omega)]
    simp only [Prog.exec]
    rw [List.drop_eq_getElem_cons hoff, List.take_succ_cons]

theorem le_pageRound (n : Nat) : n ≤ pageRound n := by
  unfold pageRound PAGE_SIZE
  omega

theorem size_t_ofNat (n : Nat) (h : n < 2 ^ 64) : size_t (n : Int) = n := by
  unfold size_t
  have : ((n : Int) % 2 ^ 64) = (n : Int) := Int.emod_eq_of_lt (by omega) (by exact_mod_cast h)
  rw [this]; simp

theorem Prog.exec_sys {α : Type} (pid : Pid) (k : Kernel) (c : Sys) (f : c.Res → Prog α) :
    (Prog.sys c f).exec pid k =
      match k.sys pid c with
      | .done r k1 => (f r).exec pid k1
      | .blocked k1 => .blocked k1
      | .killed sig k1 => .killed sig k1 := by
  simp only [Prog.exec]

theorem MmapIPC.open_eq (self : MmapIPC) :
    MmapIPC.open self =
      Prog.sys (.mmap (size_t self.mm_size) (PROT_READ ||| PROT_WRITE) (MAP_ANON ||| MAP_SHARED))
        (fun mm => (memset mm 0 (size_t self.mm_size)).bind
          (fun _ => Prog.ret (none, ⟨⟨false, true⟩, ⟨true, true⟩, mm, self.mm_size⟩))) := by
  rfl

/-- The content of a fresh mapping of `pageRound n` bytes after `memset(mm, 0, n)`. -/
theorem zeroed_region (n : Nat) :
    List.take 0 (List.replicate (pageRound n) 0) ++ List.replicate n (0 : Byte) ++
      List.drop (0 + (List.replicate n (0 : Byte)).length) (List.replicate (pageRound n) 0)
      = List.replicate (pageRound n) 0 := by
  have h := le_pageRound n
  simp only [List.take_zero, List.nil_append, List.length_replicate, Nat.zero_add,
    List.drop_replicate, List.append_replicate_replicate]
  congr 1
  omega

theorem exec_MmapIPC_open (pid : Pid) (self : MmapIPC) (k : Kernel) (hk : k.maps = [])
    (hsz : size_t self.mm_size ≠ 0) :
    (MmapIPC.open self).exec pid k =
      .returned (none, ⟨⟨false, true⟩, ⟨true, true⟩, k.nextMap, self.mm_size⟩)
        { k with
          maps := [(k.nextMap, List.replicate (pageRound (size_t self.mm_size)) 0)],
          nextMap := k.nextMap + pageRound (size_t self.mm_size) } := by
  rw [MmapIPC.open_eq, Prog.exec_sys]
  simp only [Kernel.sys, Kernel.sysMmap, hsz, if_false, hk, List.nil_append]
  rw [Prog.exec_bind]
  have := exec_storeBytes pid (List.replicate (size_t self.mm_size) 0)
    { k with
      maps := [(k.nextMap, List.replicate (pageRound (size_t self.mm_size)) 0)],
      nextMap := k.nextMap + pageRound (size_t self.mm_size) } k.nextMap
      (List.replicate (pageRound (size_t self.mm_size)) 0) 0 rfl
      (by simp only [List.length_replicate, Nat.zero_add]; exact le_pageRound _)
  simp only [Nat.add_zero] at this
  simp only [memset]
  rw [this]
  simp only [Prog.exec, zeroed_region]

theorem MmapIPC.read_eq (self : MmapIPC) (buf : List Byte) (len : Int) :
    MmapIPC.read self buf len =
      Prog.sys (.cout "reading") (fun _ =>
        Prog.sys (.pthread_mutex_lock self.mtx) (fun r =>
          (memcpy_from buf self.mm (size_t len)).bind (fun buf1 =>
            Prog.ret (some len, buf1, { self with mtx := { r.2 with locked := false } })))) := by
  rfl

theorem exec_memcpy_from (pid : Pid) (n : Nat) (k : Kernel) (dst : List Byte) (base : Ptr)
    (data : List Byte) (hm : k.maps = [(base, data)]) (hlen : n ≤ data.length) :
    (memcpy_from dst base n).exec pid k = .returned (fill dst (data.take n)) k := by
  have := exec_loadBytes pid n k base data 0 hm (by omega)
  simp only [Nat.add_zero, List.drop_zero] at this
  simp only [memcpy_from, Bind.bind, pure]
  rw [Prog.exec_bind, this]
  simp only [Prog.exec]

theorem exec_MmapIPC_read (pid : Pid) (self : MmapIPC) (buf : List Byte) (len : Int) (k : Kernel)
    (data : List Byte) (hmtx : self.mtx.locked = false) (hk : k.maps = [(self.mm, data)])
    (hlen : size_t len ≤ data.length) :
    (MmapIPC.read self buf len).exec pid k =
      .returned (some len, fill buf (data.take (size_t len)), self)
        { k with out := k.out ++ [⟨pid, "reading", []⟩] } := by
  rw [MmapIPC.read_eq, Prog.exec_sys]
  simp only [Kernel.sys]
  rw [Prog.exec_sys]
  simp only [Kernel.sys, hmtx, Bool.false_eq_true, if_false]
  rw [Prog.exec_bind]
  rw [exec_memcpy_from pid (size_t len)
    { k with out := k.out ++ [⟨pid, "reading", []⟩] } buf self.mm data hk hlen]
  simp only [Prog.exec]
  congr 2
  cases self with
  | mk mtx a b c =>
    cases mtx
    simp_all

theorem afterFork_of_exec {σ : Type} (ipc : IPC σ) (c c0 : σ) (r : RetVal) (k0 : Kernel)
    (h : (ipc.open c).exec .parent Kernel.boot = .returned (r, c0) k0) :
    afterFork ipc c = some (c0, k0.fork) := by
  unfold afterFork
  rw [h]

theorem afterFork_MmapIPC :
    afterFork MmapIPC.ipc MmapIPC.new =
      some (MmapIPC.opened, Kernel.mmapForked (List.replicate (pageRound 1024) 0) []) :=
  afterFork_of_exec MmapIPC.ipc MmapIPC.new _ _ _
    (exec_MmapIPC_open .parent MmapIPC.new Kernel.boot rfl (by decide))

theorem fill_take_replicate (out : List Byte) (n m : Nat) (h : n ≤ m) :
    fill out (List.take n (List.replicate m 0)) = List.replicate n 0 ++ out.drop n := by
  simp only [fill, List.take_replicate, List.length_replicate, Nat.min_eq_left h]

/-- C10: on a channel that was just opened, `MmapIPC::read(out, len)` with
`0 ≤ len ≤ 1024`, run by either process before any write, returns `len`, sets
`out[0..len)` to zero bytes (the rest of `out` is kept) and leaves the shared
mapping as it was. -/
theorem C10_read_before_write_is_zero (pid : Pid) (n : Nat) (out : List Byte)
    (hn : n ≤ 1024) (hout : n ≤ out.length) :
    ∃ c0 k0, afterFork MmapIPC.ipc MmapIPC.new = some (c0, k0) ∧
      ∃ c1 k1, (MmapIPC.read c0 out n).exec pid k0 =
          .returned (some n, List.replicate n 0 ++ out.drop n, c1) k1 ∧
        (List.replicate n 0 ++ out.drop n).length = out.length ∧
        k1.maps = k0.maps := by
  refine ⟨_, _, afterFork_MmapIPC, ?_⟩
  have hs : size_t (n : Int) = n := size_t_ofNat n (by omega)
  have hp : n ≤ pageRound 1024 := le_trans hn (le_pageRound 1024)
  have := exec_MmapIPC_read pid MmapIPC.opened out n
    (Kernel.mmapForked (List.replicate (pageRound 1024) 0) [])
    (List.replicate (pageRound 1024) 0) rfl rfl (by simp only [hs, List.length_replicate]; exact hp)
  rw [hs, fill_take_replicate out n _ hp] at this
  refine ⟨_, _, this, ?_, rfl⟩
  simp only [List.length_append, List.length_replicate, List.length_drop]
  omega

/-- Witness for C10: a read of 3 bytes by the child into a buffer of 4. -/
theorem C10_read_before_write_is_zero_witness :
    ∃ c0 k0, afterFork MmapIPC.ipc MmapIPC.new = some (c0, k0) ∧
      ∃ c1 k1, (MmapIPC.read c0 [9, 9, 9, 9] (3 : Nat)).exec .child k0 =
          .returned (some (3 : Nat), List.replicate 3 0 ++ [9, 9, 9, 9].drop 3, c1) k1 ∧
        (List.replicate 3 0 ++ [9, 9, 9, 9].drop 3).length = [9, 9, 9, 9].length ∧
        k1.maps = k0.maps :=
  C10_read_before_write_is_zero .child 3 [9, 9, 9, 9] (by decide) (by decide)

theorem fill_length (out data : List Byte) (h : data.length ≤ out.length) :
    (fill out data).length = out.length := by
  simp [fill]; omega

theorem exchange_of_run {σ : Type} (ipc : IPC σ) (c c0 c2 : σ) (buf out out1 : List Byte)
    (len : Int) (k0 : Kernel) (schedule : List Pid) (r1 : RetVal × σ) (r2 : RetVal)
    (h0 : afterFork ipc c = some (c0, k0))
    (h1 : ((World.mk k0 (ipc.write c0 buf len) (ipc.read c0 out len)).run schedule).parent.result
      = some r1)
    (h2 : ((World.mk k0 (ipc.write c0 buf len) (ipc.read c0 out len)).run schedule).child.result
      = some (r2, out1, c2)) :
    exchange ipc c buf out len schedule = some out1 := by
  unfold exchange
  rw [h0]
  simp only []
  rw [h1, h2]

set_option maxRecDepth 4000 in
theorem torn_MmapIPC :
    exchange MmapIPC.ipc MmapIPC.new (cstr "I love you") (List.replicate 10 0) 10
        (List.replicate 7 .parent ++ List.replicate 12 .child ++ List.replicate 5 .parent) =
      some ("I lov".toList.map Char.toNat ++ List.replicate 5 0) := by
  refine exchange_of_run MmapIPC.ipc MmapIPC.new _ MmapIPC.opened _ _ _ _ _ _
    (some 10, MmapIPC.opened) (some 10) afterFork_MmapIPC ?_ ?_
  · decide
  · decide

/-- C5: an `IPCFork` built by `new IPCFork(c)` in storage whose `pid_child` bytes hold
4242 (the constructor leaves the member as it finds it), on which `doFork` was never
called: `waitFinish` does not take the "no child" branch, it calls `waitpid(4242)` and
returns what that call returns.  A `TestFork` built by `new TestFork()` is
zero-initialised and takes the "no child" branch. -/
theorem C5_waitFinish_reads_uninitialised_pid_child (os : Oracle) (fuel : Nat) :
    (∃ self c, (IPCFork.new (SocketIPC.ipc fuel) SocketIPC.new ⟨4242⟩).run os []
        = (.returned (self, c), []) ∧
      (BasicFork.waitFinish self).run os [] =
        (.returned (os [] (.waitpid 4242)), [⟨.waitpid 4242, os [] (.waitpid 4242)⟩])) ∧
    (BasicFork.waitFinish TestFork.new).run os [] =
      (.returned 0, [⟨.cout "Child wait finish", ()⟩]) := by
  refine ⟨⟨⟨4242⟩, SocketIPC.opened, rfl, ?_⟩, ?_⟩
  · exact waitFinish_nonzero ⟨4242⟩ os [] (by decide)
  · exact waitFinish_zero TestFork.new os [] rfl

/-- C7: the mutex of `MmapIPC` is a member of the object, so after the fork each process
locks its own copy.  With the payload "I love you" and the region still zero, after two
calls of the parent and two of the child both are past `pthread_mutex_lock` (the
parent is about to store the first byte, the child to load it); and when the child's
`read` runs while the parent has copied five of the ten bytes, it delivers "I lov"
followed by zero bytes, which is neither the region before the write nor after it. -/
theorem C7_read_observes_half_copied_region :
    ((World.mk (Kernel.mmapForked (List.replicate (pageRound 1024) 0) [])
        (MmapIPC.write MmapIPC.opened (cstr "I love you") 10)
        (MmapIPC.read MmapIPC.opened (List.replicate 10 0) 10)).run
          [.parent, .parent, .child, .child]).parent.nextCall
      = some (.store Kernel.boot.nextMap 73) ∧
    ((World.mk (Kernel.mmapForked (List.replicate (pageRound 1024) 0) [])
        (MmapIPC.write MmapIPC.opened (cstr "I love you") 10)
        (MmapIPC.read MmapIPC.opened (List.replicate 10 0) 10)).run
          [.parent, .parent, .child, .child]).child.nextCall
      = some (.load Kernel.boot.nextMap) ∧
    exchange MmapIPC.ipc MmapIPC.new (cstr "I love you") (List.replicate 10 0) 10
        (List.replicate 7 .parent ++ List.replicate 12 .child ++ List.replicate 5 .parent) =
      some ("I lov".toList.map Char.toNat ++ List.replicate 5 0) ∧
    ¬ AllOrNothing (cstr "I love you") (List.replicate 10 0) 10 := by
  refine ⟨by decide, by decide, torn_MmapIPC, ?_⟩
  intro h
  have := h _ _ torn_MmapIPC
  revert this
  decide

/-- C6: when `fork` returns a negative value, `BasicFork::doFork` makes no further call
(neither role runs), leaves `pid_child` and the data of the subclass as they were,
and reaches the end of the function without a `return` statement: no value, in
particular not the error value of the OS, is handed to the caller. -/
theorem C6_doFork_failed_fork_returns_nothing {σ : Type} (vt : Fork σ) (self : BasicFork)
    (d : σ) (os : Oracle) (tr : List Event) (h : (os tr .fork : Int) < 0) :
    (BasicFork.doFork vt self d).run os tr
      = (.returned (none, self, d), tr ++ [⟨.fork, os tr .fork⟩]) :=
  doFork_failed vt self d os tr h

/-- Witness for C6: `TestFork` when `fork` returns -1. -/
theorem C6_doFork_failed_fork_returns_nothing_witness :
    (BasicFork.doFork TestFork TestFork.new ()).run (scriptedOS 0 0 (-1) 0) []
      = (.returned (none, TestFork.new, ()), [⟨.fork, (-1 : Int)⟩]) :=
  C6_doFork_failed_fork_returns_nothing TestFork TestFork.new () (scriptedOS 0 0 (-1) 0) []
    (by decide)

/-- C9: when `fork` returns a positive pid, `BasicFork::doFork` is the call of `fork`
followed by one run of the parent role, whose result it returns, with that pid
recorded in `pid_child` (the child role is not run); `waitFinish` on the object then
makes exactly the call `waitpid(pid)` and returns its result.  When `fork` returns
0, `doFork` is the call of `fork` followed by one run of the child role, and if the
role returns the process ends with `exit(0)`: `doFork` never returns and the parent
role is not run. -/
theorem C9_doFork_roles {σ : Type} (vt : Fork σ) (self : BasicFork) (d : σ) (os : Oracle)
    (tr : List Event) :
    (0 < (os tr .fork : Int) →
      (BasicFork.doFork vt self d).run os tr =
        (match (vt.parentHandle d).run os (tr ++ [⟨.fork, os tr .fork⟩]) with
          | (.returned (r, d1), tr1) => (.returned (r, ⟨os tr .fork⟩, d1), tr1)
          | (.exited st, tr1) => (.exited st, tr1)
          | (.spinning, tr1) => (.spinning, tr1)) ∧
      ∀ tr2, (BasicFork.waitFinish ⟨os tr .fork⟩).run os tr2 =
        (.returned (os tr2 (.waitpid (os tr .fork))),
          tr2 ++ [⟨.waitpid (os tr .fork), os tr2 (.waitpid (os tr .fork))⟩])) ∧
    ((os tr .fork : Int) = 0 →
      (BasicFork.doFork vt self d).run os tr =
        (match (vt.childHandle d).run os (tr ++ [⟨.fork, os tr .fork⟩]) with
          | (.returned _, tr1) => (.exited 0, tr1)
          | (.exited st, tr1) => (.exited st, tr1)
          | (.spinning, tr1) => (.spinning, tr1))) := by
  refine ⟨fun h => ⟨doFork_parent vt self d os tr h, fun tr2 => ?_⟩,
    fun h => doFork_child vt self d os tr h⟩
  exact waitFinish_nonzero ⟨os tr .fork⟩ os tr2 (fun e => by
    have e2 : (os tr .fork : Int) = 0 := e
    rw [e2] at h
    exact absurd h (by decide))

/-- Witness for C9: `TestFork`, whose roles print a line each, when `fork` returns 77
(parent) and when it returns 0 (child). -/
theorem C9_doFork_roles_witness :
    ((BasicFork.doFork TestFork TestFork.new ()).run (scriptedOS 0 0 77 0) []).1
      = .returned (some 0, ⟨77⟩, ()) ∧
    stdoutOf ((BasicFork.doFork TestFork TestFork.new ()).run (scriptedOS 0 0 77 0) []).2
      = ["This ParentHandle !"] ∧
    (BasicFork.waitFinish ⟨77⟩).run (scriptedOS 0 0 77 0) []
      = (.returned 0, [⟨.waitpid 77, (0 : Int)⟩]) ∧
    ((BasicFork.doFork TestFork TestFork.new ()).run (scriptedOS 0 0 0 0) []).1
      = .exited 0 ∧
    stdoutOf ((BasicFork.doFork TestFork TestFork.new ()).run (scriptedOS 0 0 0 0) []).2
      = ["This ChildHandle !"] := by
  have hp := (C9_doFork_roles TestFork TestFork.new () (scriptedOS 0 0 77 0) []).1 (by decide)
  have hc := (C9_doFork_roles TestFork TestFork.new () (scriptedOS 0 0 0 0) []).2 (by decide)
  refine ⟨?_, ?_, hp.2 [], ?_, ?_⟩
  · rw [hp.1]; decide
  · rw [hp.1]; decide
  · rw [hc]; decide
  · rw [hc]; decide

end IPCDemo
